import Mathlib

/-!
Verification of the deep-research-agent orchestration core.

Shallow embedding of the Python sources under src/server/: the data model
(models.py), the content quality gate (utils/content_validators.py), the
URL ad filter (utils/url_filters.py), the search-result deduplication,
relevance filtering, query rewriting, guardrail, scrape/extract merging and
the orchestrator state machine (workflow.py, tasks/*.py).

External collaborators (the search provider, the LLM backends, the page
fetcher) are modelled as oracles: their replies are inputs to the embedded
functions, exactly the data the Python code receives from them.
-/

namespace DeepResearch

/-! ## Python string primitives

All string manipulation is modelled on the underlying character list, so
that every definition reduces in the kernel.  These mirror the Python
methods used by the sources: str.strip, str.split with no arguments,
str.lower, str.upper, slicing, substring and startswith tests. -/

/-- Model of Python len on a string: the number of characters. -/
def pyLen (s : String) : Nat := s.data.length

/-- Model of Python str.strip with no arguments: drop whitespace from both ends. -/
def pyStrip (s : String) : String :=
  String.mk (((s.data.dropWhile Char.isWhitespace).reverse.dropWhile Char.isWhitespace).reverse)

/-- Helper for pyWords: accumulate the current word while scanning. -/
def pyWordsAux : List Char → List Char → List String
  | [], acc => if acc.isEmpty then [] else [String.mk acc.reverse]
  | c :: cs, acc =>
    if c.isWhitespace then
      if acc.isEmpty then pyWordsAux cs [] else String.mk acc.reverse :: pyWordsAux cs []
    else pyWordsAux cs (c :: acc)

/-- Model of Python str.split with no arguments: split on whitespace runs,
dropping empty fragments. -/
def pyWords (s : String) : List String := pyWordsAux s.data []

/-- Model of the Python slice s[:n]. -/
def pyTake (n : Nat) (s : String) : String := String.mk (s.data.take n)

/-- Model of Python str.lower (ASCII case folding suffices for the URL patterns). -/
def pyLower (s : String) : String := String.mk (s.data.map Char.toLower)

/-- Model of Python str.upper. -/
def pyUpper (s : String) : String := String.mk (s.data.map Char.toUpper)

/-- Helper: does the second list start with the first. -/
def charListLeads : List Char → List Char → Bool
  | [], _ => true
  | _ :: _, [] => false
  | p :: ps, c :: cs => p = c && charListLeads ps cs

/-- Helper: does the pattern occur somewhere in the list. -/
def charListHasSub (pat : List Char) : List Char → Bool
  | [] => pat.isEmpty
  | c :: cs => charListLeads pat (c :: cs) || charListHasSub pat cs

/-- Model of the Python substring test: pat in s. -/
def pyContains (s pat : String) : Bool := charListHasSub pat.data s.data

/-- Model of Python str.startswith. -/
def pyStartsWith (s pat : String) : Bool := pat.data.isPrefixOf s.data

/-- Helper for pySplitLines: split on newline characters, keeping empty lines. -/
def pySplitLinesAux : List Char → List Char → List String
  | [], acc => [String.mk acc.reverse]
  | c :: cs, acc =>
    if c = '\n' then String.mk acc.reverse :: pySplitLinesAux cs []
    else pySplitLinesAux cs (c :: acc)

/-- Model of Python str.split on a newline separator. -/
def pySplitLines (s : String) : List String := pySplitLinesAux s.data []

/-- Model of Python truthiness of an optional string: None and the empty
string are falsy. -/
def pyFalsyOptStr : Option String → Bool
  | none => true
  | some s => s = ""

/-! ## Data model (src/server/models.py) -/

/-- SearchResult (models.py lines 25-28): title, url, snippet. -/
structure SearchResult where
  title : String
  url : String
  snippet : String
deriving DecidableEq, Repr

/-- FilteredSearchResult (models.py lines 32-36): a SearchResult plus a
relevance score.  The Python float is modelled as a rational; only
comparisons on it matter to the embedded code. -/
structure FilteredSearchResult where
  title : String
  url : String
  snippet : String
  relevance_score : ℚ
deriving DecidableEq, Repr

/-- DirectoryItem (models.py lines 78-82). -/
structure DirectoryItem where
  title : String
  url : Option String
  description : Option String
  price : Option String
deriving DecidableEq, Repr

/-- ExtractedContent (models.py lines 96-102): the tagged union of the five
page content variants, with the fields each variant carries. -/
inductive ExtractedContent where
  | article (title url content : String) (author date : Option String)
  | product (title url : String) (name price : Option String)
      (options : List String) (description : Option String) (features : List String)
  | forumPost (title url content : String) (author : Option String) (replies : List String)
  | directory (title url : String) (items : List DirectoryItem)
  | other (title url content : String)
deriving DecidableEq, Repr

/-- The page_type discriminator string of each variant (the Literal field in
models.py). -/
def ExtractedContent.page_type : ExtractedContent → String
  | .article .. => "article"
  | .product .. => "product"
  | .forumPost .. => "forum_post"
  | .directory .. => "directory"
  | .other .. => "other"

/-- The title field, present on every variant. -/
def ExtractedContent.title : ExtractedContent → String
  | .article t .. => t
  | .product t .. => t
  | .forumPost t .. => t
  | .directory t .. => t
  | .other t .. => t

/-- The url field, present on every variant. -/
def ExtractedContent.url : ExtractedContent → String
  | .article _ u .. => u
  | .product _ u .. => u
  | .forumPost _ u .. => u
  | .directory _ u .. => u
  | .other _ u .. => u

/-! ## Quality gate (src/server/utils/content_validators.py) -/

/-- MIN_CONTENT_LENGTH (content_validators.py line 9). -/
def MIN_CONTENT_LENGTH : Nat := 50

/-- MIN_MEANINGFUL_WORDS (content_validators.py line 10). -/
def MIN_MEANINGFUL_WORDS : Nat := 10

/-- has_meaningful_content (content_validators.py lines 13-61), translated
branch for branch.  Note that the word-count test on line 32-34 appears only
in the article branch of the source. -/
def has_meaningful_content : ExtractedContent → Bool
  | .article _ _ content _ _ =>
    if content = "" || pyLen (pyStrip content) < MIN_CONTENT_LENGTH then false
    else if (pyWords content).length < MIN_MEANINGFUL_WORDS then false
    else true
  | .product _ _ name _ _ description _ =>
    if pyFalsyOptStr name && pyFalsyOptStr description then false else true
  | .forumPost _ _ content _ _ =>
    if content = "" || pyLen (pyStrip content) < MIN_CONTENT_LENGTH then false
    else true
  | .directory _ _ items => if items.isEmpty then false else true
  | .other _ _ content =>
    if content = "" || pyLen (pyStrip content) < MIN_CONTENT_LENGTH then false
    else true

/-! ## Ad and tracking URL filter (src/server/utils/url_filters.py)

Each entry of AD_PATTERNS is a regular expression used with re.search and
re.IGNORECASE.  Every pattern is a literal string (dots escaped) possibly
surrounded by `.*`, and re.search already matches anywhere in the URL, so
each one is equivalent to a case-insensitive substring test for its literal
core.  The list below holds those literal cores in source order. -/

/-- The literal substring cores of AD_PATTERNS (url_filters.py lines 6-17). -/
def AD_PATTERN_CORES : List String :=
  ["bing.com/aclick", "doubleclick.net", "googleadservices.com", "ads.",
   ".ad.", "click.", "tracker.", "affiliate.", "youtube.com", "youtu.be"]

/-- is_ad_or_tracking_url (url_filters.py lines 23-36): the URL matches one
of the compiled patterns, i.e. contains one of the literal cores,
case-insensitively. -/
def is_ad_or_tracking_url (url : String) : Bool :=
  AD_PATTERN_CORES.any (fun p => pyContains (pyLower url) (pyLower p))

/-! ## Search-result deduplication (workflow.py lines 91-123) -/

/-- Loop body of _deduplicate_search_results (workflow.py lines 115-121):
walk the search results, keeping a result when its url is not in the seen
set and fewer than max_results have been kept; kept urls join the local
seen set so later duplicates inside the same call are dropped.  Returns the
pair (new_results, new_urls). -/
def dedupLoop (max_results : Nat) :
    List SearchResult → List String → Nat → List SearchResult × List String
  | [], _, _ => ([], [])
  | r :: rs, seen, kept =>
    if r.url ∉ seen ∧ kept < max_results then
      let rest := dedupLoop max_results rs (r.url :: seen) (kept + 1)
      (r :: rest.1, r.url :: rest.2)
    else
      dedupLoop max_results rs seen kept

/-- _deduplicate_search_results (workflow.py lines 91-123). -/
def deduplicate_search_results (search_results : List SearchResult)
    (seen_urls_set : List String) (max_results : Nat) :
    List SearchResult × List String :=
  dedupLoop max_results search_results seen_urls_set 0

/-! ## Relevance filtering (src/server/tasks/filtering.py) -/

/-- TitleFilterOutput (models.py lines 40-45).  filtered_out is an Int since
the Python subtraction on line 106 of filtering.py can go negative when the
collaborator returns more items than it was given. -/
structure TitleFilterOutput where
  query : String
  total_results : Nat
  relevant_results : List FilteredSearchResult
  filtered_out : Int
  avg_relevance_score : ℚ
deriving DecidableEq, Repr

/-- The reply of the relevance-filter collaborator, as the embedded code
receives it: the call was cancelled, the reply parsed into a list of scored
items (filtering.py lines 91-102), or parsing raised (line 125). -/
inductive FilterReply where
  | cancelled
  | parsed (items : List FilteredSearchResult)
  | parseFail
deriving DecidableEq, Repr

/-- Stable insertion step for the descending sort: x is placed before the
first element whose score it meets or exceeds, so an element keeps its
position relative to equal-scored elements inserted after it. -/
def sortedInsertDesc (x : FilteredSearchResult) :
    List FilteredSearchResult → List FilteredSearchResult
  | [] => [x]
  | y :: l =>
    if y.relevance_score ≤ x.relevance_score then x :: y :: l
    else y :: sortedInsertDesc x l

/-- Model of Python sorted with key relevance_score and reverse=True
(filtering.py lines 113-115).  Python sorted is a stable descending sort;
stable sorts under one key agree on their output, so this insertion
formulation computes the same list. -/
def pySortDesc : List FilteredSearchResult → List FilteredSearchResult
  | [] => []
  | x :: l => sortedInsertDesc x (pySortDesc l)

/-- filter_search_results_by_titles (filtering.py lines 21-143) with the
collaborator reply supplied as an oracle.  k is MAX_RESULTS_FILTERED.
Returns the TitleFilterOutput and the cancelled flag. -/
def filter_search_results_by_titles (k : Nat) (query : String)
    (search_results : List SearchResult) (reply : FilterReply) :
    TitleFilterOutput × Bool :=
  let clean_results := search_results.filter (fun r => ¬ is_ad_or_tracking_url r.url)
  let rejected_count : Int := (search_results.length : Int) - clean_results.length
  if clean_results.isEmpty then
    (⟨query, search_results.length, [], (search_results.length : Int), 0⟩, false)
  else
    match reply with
    | .cancelled =>
      (⟨query, search_results.length, [], (search_results.length : Int), 0⟩, true)
    | .parsed items =>
      let total := search_results.length
      let relevant := items.length
      let avg : ℚ :=
        if 0 < relevant then (items.map (·.relevance_score)).sum / relevant else 0
      (⟨query, total, (pySortDesc items).take k, (total : Int) - relevant, avg⟩, false)
    | .parseFail =>
      let fallback := (clean_results.map
        (fun r => FilteredSearchResult.mk r.title r.url r.snippet (7 / 10))).take k
      (⟨query, search_results.length, fallback, rejected_count, 7 / 10⟩, false)

/-! ## Query rewriting (src/server/tasks/rewriter.py) -/

/-- QueryWithFilter (models.py lines 11-14). -/
structure QueryWithFilter where
  query : String
  time_filter : Option String
  strategy : Option String
deriving DecidableEq, Repr

/-- RewriterOutput (models.py lines 18-21).  The action field is one of
"continue", "stop", "cancelled". -/
structure RewriterOutput where
  action : String
  requires_recency : Bool := false
  queries : List QueryWithFilter := []
deriving DecidableEq, Repr

/-- One entry of the parsed queries array in the rewriter reply
(rewriter.py lines 85-95): a JSON object with optional fields, a bare
string, or any other JSON value (which the loop skips). -/
inductive JsonQueryEntry where
  | dict (query : Option String) (time_filter : Option String) (strategy : Option String)
  | str (s : String)
  | otherValue
deriving DecidableEq, Repr

/-- The reply of the rewrite collaborator as the embedded code receives it:
cancelled, a successfully parsed JSON object (action, queries array,
requires_recency), or a parse failure carrying the raw reply text
(rewriter.py line 103). -/
inductive RewriterReply where
  | cancelled
  | parsed (action_is_stop : Bool) (queries : List JsonQueryEntry) (requires_recency : Bool)
  | parseFail (content : String)
deriving DecidableEq, Repr

/-- Conversion of one parsed queries entry (rewriter.py lines 86-95):
dict entries use q.get defaults, bare strings become plain queries, other
values are skipped. -/
def jsonEntryToQuery : JsonQueryEntry → Option QueryWithFilter
  | .dict q tf strat => some ⟨q.getD "", tf, strat⟩
  | .str s => some ⟨s, none, none⟩
  | .otherValue => none

/-- rewrite_queries_task (rewriter.py lines 35-115) with the collaborator
reply as oracle.  Returns the RewriterOutput, the cancelled flag, and the
number of collaborator calls the task performed (the source calls
call_llm_with_cancel exactly once and never retries; a parse failure falls
through to the plain-text fallback on lines 103-115). -/
def rewrite_queries_task (reply : RewriterReply) : RewriterOutput × Bool × Nat :=
  match reply with
  | .cancelled => (⟨"cancelled", false, []⟩, true, 1)
  | .parsed action_is_stop queries requires_recency =>
    if action_is_stop then (⟨"stop", false, []⟩, false, 1)
    else (⟨"continue", requires_recency, (queries.take 3).filterMap jsonEntryToQuery⟩, false, 1)
  | .parseFail content =>
    if pyUpper content = "STOP" then (⟨"stop", false, []⟩, false, 1)
    else
      (⟨"continue", false,
        (((pySplitLines content).filter
            (fun q => pyStrip q ≠ "" ∧ ¬ pyStartsWith q "-")).map
          (fun q => QueryWithFilter.mk (pyStrip q) none none)).take 3⟩, false, 1)

/-! ## Guardrail (src/server/tasks/guardrail.py) -/

/-- GuardrailResult (guardrail.py lines 18-24). -/
structure GuardrailResult where
  is_acceptable : Bool
  reason : String
  confidence : ℚ
deriving DecidableEq, Repr

/-- The reply of the guardrail collaborator: cancelled, parsed JSON with the
optional fields the code reads (guardrail.py lines 53-57), a parse failure,
or a collaborator error; the last two land in the same except branch
(lines 70-75). -/
inductive GuardrailReply where
  | cancelled
  | parsed (is_acceptable : Option Bool) (reason : Option String) (confidence : Option ℚ)
  | parseFail
  | llmError
deriving DecidableEq, Repr

/-- check_query_safety (guardrail.py lines 28-75) with the collaborator
reply as oracle.  Returns the result, the cancelled flag and the number of
collaborator calls (always one; parse failures fail open without retrying).
Missing JSON fields default to accept. -/
def check_query_safety (reply : GuardrailReply) : GuardrailResult × Bool × Nat :=
  match reply with
  | .cancelled => (⟨true, "", 0⟩, true, 1)
  | .parsed acc reason conf =>
    (⟨acc.getD true, reason.getD "Unable to determine", conf.getD (1 / 2)⟩, false, 1)
  | .parseFail => (⟨true, "Unable to evaluate query safety", 0⟩, false, 1)
  | .llmError => (⟨true, "Unable to evaluate query safety", 0⟩, false, 1)

/-! ## Rewriter content digest (rewriter.py lines 18-31)

_build_content_summary is annotated to take a list of ExtractedContent, and
reads c.title, c.page_type, and hasattr-guarded c.content / c.description.
The workflow (workflow.py line 559) actually passes state.searches, whose
elements are SearchResult values.  The embedding therefore runs over a sum
of the two element kinds and models Python attribute lookup: a lookup of a
missing attribute raises AttributeError, rendered here as none propagating
out of the builder. -/

/-- An element of the list handed to _build_content_summary: either a
SearchResult (what workflow.py line 559 passes) or an ExtractedContent
(what the annotation promises). -/
inductive SummaryInput where
  | search (r : SearchResult)
  | extracted (c : ExtractedContent)
deriving DecidableEq, Repr

/-- Python attribute lookup of page_type: SearchResult (models.py lines
25-28) has no such field, so the lookup raises (none). -/
def pageTypeAttr : SummaryInput → Option String
  | .search _ => none
  | .extracted c => some c.page_type

/-- Python attribute lookup of title: present on both kinds. -/
def titleAttr : SummaryInput → String
  | .search r => r.title
  | .extracted c => c.title

/-- hasattr(c, "content") together with the value: only the article,
forum_post and other variants carry content. -/
def contentAttr : SummaryInput → Option String
  | .extracted (.article _ _ content _ _) => some content
  | .extracted (.forumPost _ _ content _ _) => some content
  | .extracted (.other _ _ content) => some content
  | _ => none

/-- hasattr(c, "description") together with the (optional) value: only the
product variant carries description. -/
def descriptionAttr : SummaryInput → Option (Option String)
  | .extracted (.product _ _ _ _ _ description _) => some description
  | _ => none

/-- One iteration of the summary loop (rewriter.py lines 24-30): build the
dash line for one element; none models the AttributeError raised by the
page_type lookup on line 25. -/
def buildSummaryLine (c : SummaryInput) : Option String := do
  let pt ← pageTypeAttr c
  let base := "- [" ++ titleAttr c ++ "]: " ++ pt
  match contentAttr c with
  | some content =>
    if content ≠ "" then pure (base ++ " - " ++ pyTake 200 content ++ "...")
    else pure base
  | none =>
    match descriptionAttr c with
    | some d =>
      if d.getD "" ≠ "" then pure (base ++ " - " ++ pyTake 200 (d.getD "") ++ "...")
      else pure base
    | none => pure base

/-- _build_content_summary (rewriter.py lines 18-31): the fixed string on an
empty list, otherwise the newline join of the per-element lines; none when
any element raises. -/
def build_content_summary (content_list : List SummaryInput) : Option String :=
  if content_list.isEmpty then some "No content gathered yet."
  else (content_list.mapM buildSummaryLine).map (String.intercalate "\n")

/-! ## Scrape and extract merging (workflow.py lines 224-437) -/

/-- Outcome of one scrape_and_extract_task unit (extraction.py lines
268-367), abstracted to what _scrape_and_extract_results consumes: the unit
was cancelled, the fetch failed, extraction produced a content value (the
dict round-trip through model_dump and create_extracted_content is the
identity on the values the factory produces), or extraction yielded
nothing. -/
inductive ScrapeOutcome where
  | cancelled
  | scrapeFailed (err : String)
  | extracted (c : ExtractedContent)
  | noExtraction (err : String)
deriving DecidableEq, Repr

/-- The accepted content of one extraction-enabled batch (workflow.py lines
347-433): a unit contributes its content exactly when it produced one that
passes the quality gate on line 381.  Completion order is an interleaving
chosen by the scheduler; the oracle list fixes one such order. -/
def scrape_extract_accepted (outcomes : List ScrapeOutcome) : List ExtractedContent :=
  outcomes.filterMap (fun o =>
    match o with
    | .extracted c => if has_meaningful_content c then some c else none
    | _ => none)

/-- The accepted content of one extraction-disabled batch (workflow.py lines
257-334): each unit fetches its page; a non-empty fetch is wrapped as
OtherContent and appended with no quality gate.  The oracle pairs each
dispatched result with its fetch outcome. -/
def scrape_no_extraction_accepted (results : List SearchResult)
    (fetches : List (Except String String)) : List ExtractedContent :=
  (results.zip fetches).filterMap (fun p =>
    match p.2 with
    | .ok content =>
      if content ≠ "" then some (.other p.1.title p.1.url content) else none
    | .error _ => none)

/-! ## Final response (workflow.py lines 705-752) -/

/-- _generate_final_response with the writer collaborator as oracle: on a
non-empty collection the writer is invoked once (write_response_task,
workflow.py line 736) and its failure propagates; on an empty collection
the fixed fallback string is returned with zero writer calls.  The Nat in
the result counts writer invocations. -/
def generate_final_response (extracted_content : List ExtractedContent)
    (writer : Except String String) : Except String (String × Nat) :=
  if extracted_content.isEmpty then .ok ("No content was gathered.", 0)
  else
    match writer with
    | .ok response => .ok (response, 1)
    | .error e => .error e

/-! ## Session state and the orchestrator (workflow.py)

The orchestrator runs single-process cooperative concurrency: the batch
coroutines of one gather all take their seen-URL snapshot before the first
suspension point, and state merges happen only after the whole batch
resolves, so the embedding processes a batch against the pre-batch state
and merges results in task order.  The shared stop flag is modelled as a
function from check occurrence index to Bool; each executed check_stop that
the control flow branches on consumes one index, in program order.

Two ghost fields extend ResearchState: dispatched_scrapes records every URL
ever handed to the scrape/extract stage (the fetch history), and replies_ok
records whether every relevance-filter reply seen so far returned pairwise
distinct URLs drawn from the fresh results given to it. -/

/-- Boolean no-duplicates test on a url list. -/
def nodupB : List String → Bool
  | [] => true
  | u :: l => decide (u ∉ l) && nodupB l

/-- Boolean containment test of one url list in another. -/
def allMemB (l1 l2 : List String) : Bool := decide (∀ u ∈ l1, u ∈ l2)

/-- ResearchState (workflow.py lines 40-52) plus the two ghost fields. -/
structure ResearchState where
  original_query : String
  seen_urls : List String := []
  searches : List SearchResult := []
  extracted_content : List ExtractedContent := []
  queries_executed : List String := []
  total_rewritten_queries : Nat := 0
  dispatched_scrapes : List String := []
  replies_ok : Bool := true
deriving DecidableEq, Repr

/-- _search_and_filter (workflow.py lines 126-221) on the success path:
deduplicate against the snapshot, and when fresh results remain run the
relevance filter and return its accepted results converted back to
SearchResult together with their urls (lines 167-197); with no fresh
results return empty lists (line 211).  The third component is the ghost
well-formedness flag of the filter reply: returned urls pairwise distinct
and a subset of the fresh-result urls. -/
def search_and_filter (k max_results : Nat) (query : String)
    (seen_urls_set : List String) (search_results : List SearchResult)
    (reply : FilterReply) : List SearchResult × List String × Bool :=
  let new_results := (deduplicate_search_results search_results seen_urls_set max_results).1
  if new_results.isEmpty then ([], [], true)
  else
    let out := (filter_search_results_by_titles k query new_results reply).1
    let filtered := out.relevant_results.map
      (fun fr => SearchResult.mk fr.title fr.url fr.snippet)
    let urls := filtered.map (·.url)
    (filtered, urls, nodupB urls && allMemB urls (new_results.map (·.url)))

/-- One successful entry of a batch result (the dict built in
_process_rewritten_query, workflow.py lines 479-484). -/
structure BatchSuccess where
  query : String
  filtered_results : List SearchResult
  new_urls : List String
deriving DecidableEq, Repr

/-- The seen-URL merge of _update_state_from_batch (workflow.py lines
512-514): append each url not already present, in order. -/
def add_new_urls (seen : List String) (urls : List String) : List String :=
  urls.foldl (fun acc u => if u ∈ acc then acc else acc ++ [u]) seen

/-- _update_state_from_batch (workflow.py lines 487-518) restricted to the
successful results, which the caller has already isolated (lines 647-663):
per result, append the executed query, bump the rewritten counter, extend
the accepted searches and merge the new urls, all under the session lock. -/
def update_state_from_batch (s : ResearchState) (batch : List BatchSuccess) :
    ResearchState :=
  batch.foldl (fun st b =>
    { st with
      queries_executed := st.queries_executed ++ [b.query]
      total_rewritten_queries := st.total_rewritten_queries + 1
      searches := st.searches ++ b.filtered_results
      seen_urls := add_new_urls st.seen_urls b.new_urls }) s

/-- The urls_to_scrape_set deduplication (workflow.py lines 672-680):
first occurrence of each url wins, in batch order. -/
def dedup_by_url : List SearchResult → List String → List SearchResult
  | [], _ => []
  | r :: rs, seen =>
    if r.url ∈ seen then dedup_by_url rs seen
    else r :: dedup_by_url rs (r.url :: seen)

/-- Collect the batch results to scrape (workflow.py lines 671-680). -/
def collect_results_to_scrape (batch : List BatchSuccess) : List SearchResult :=
  dedup_by_url (batch.flatMap (·.filtered_results)) []

/-- The oracle outcome of one dispatched rewritten query: none when the
task raised or observed the stop flag after its search (workflow.py lines
471-477 and 648-661), some with the search-provider results and the filter
reply otherwise. -/
abbrev QueryOutcome := Option (List SearchResult × FilterReply)

/-- Run the dispatched batch of _iterative_query_rewriting (workflow.py
lines 626-644): each clamped query runs _process_rewritten_query against
the shared pre-batch snapshot; entries are in task order, none for failed
tasks, and each success carries its ghost reply flag. -/
def run_batch_queries (k max_results : Nat) (seen_snapshot : List String) :
    List QueryWithFilter → List QueryOutcome → List (Option (BatchSuccess × Bool))
  | [], _ => []
  | _ :: qs, [] => none :: run_batch_queries k max_results seen_snapshot qs []
  | q :: qs, o :: os =>
    (match o with
     | none => none
     | some (srs, reply) =>
       let r := search_and_filter k max_results q.query seen_snapshot srs reply
       some (⟨q.query, r.1, r.2.1⟩, r.2.2)) ::
    run_batch_queries k max_results seen_snapshot qs os

/-- Configuration values read from server.config at workflow start. -/
structure Config where
  max_queries : Nat
  max_results : Nat
  max_filtered : Nat
  use_extraction : Bool
  use_guardrails : Bool
deriving DecidableEq, Repr

/-- Default MAX_REWRITTEN_QUERIES (config.py line 4). -/
def MAX_REWRITTEN_QUERIES : Nat := 3

/-- Default MAX_RESULTS_PER_QUERY (config.py line 5). -/
def MAX_RESULTS_PER_QUERY : Nat := 10

/-- Default MAX_RESULTS_FILTERED (config.py line 6). -/
def MAX_RESULTS_FILTERED : Nat := 3

/-- The oracle inputs of one rewrite-loop iteration: the rewrite
collaborator reply, the per-query outcomes of the dispatched batch, and the
scrape/extract outcomes of the batch scrape (one list per configuration). -/
structure IterOracle where
  rewriter : RewriterReply
  query_outcomes : List QueryOutcome
  ext_outcomes : List ScrapeOutcome
  raw_outcomes : List (Except String String)

/-- How one pass of the orchestrator ended. -/
inductive LoopExit where
  | normal
  | fatal (msg : String)
deriving DecidableEq, Repr

/-- Result of the rewrite loop: final state, next stop-check index, the
sticky requires_recency flag, and how the loop ended. -/
structure LoopResult where
  state : ResearchState
  clock : Nat
  requires_recency : Bool
  exit : LoopExit
deriving DecidableEq

/-- The batch segment of one rewrite iteration (workflow.py lines 626-696):
dispatch the clamped queries against the shared pre-batch snapshot, merge
the successful results under the lock (667), then run the deduplicated
batch scrape guarded by the short-circuit stop check of line 683 (the check
is only evaluated when there is something to scrape).  Returns the merged
state and the next stop-check index. -/
def loop_batch_phase (cfg : Config) (stop : Nat → Bool) (it : IterOracle)
    (s : ResearchState) (t : Nat) (qtp : List QueryWithFilter) :
    ResearchState × Nat :=
  let batch := run_batch_queries cfg.max_filtered cfg.max_results
    s.seen_urls qtp it.query_outcomes
  let successes := batch.filterMap id
  let s1 := update_state_from_batch s (successes.map (·.1))
  let s1 := { s1 with replies_ok := s1.replies_ok && successes.all (·.2) }
  let toScrape := collect_results_to_scrape (successes.map (·.1))
  if toScrape.isEmpty then (s1, t + 2)
  else if stop (t + 2) then (s1, t + 3)
  else
    let contrib :=
      if cfg.use_extraction then scrape_extract_accepted it.ext_outcomes
      else scrape_no_extraction_accepted toScrape it.raw_outcomes
    ({ s1 with
        dispatched_scrapes := s1.dispatched_scrapes ++ toScrape.map (·.url)
        extracted_content := s1.extracted_content ++ contrib }, t + 3)

/-- One pass of _iterative_query_rewriting (workflow.py lines 548-701):
the while guard (548), a stop check (549), the content digest over
state.searches (559) whose AttributeError is fatal, the rewrite
collaborator (571), a stop check (578), the stop action (582), the recency
update (616), clamping to the remaining budget (620-621), the empty check
(623), the batch phase, and the bottom budget/stop check (699, with the
short-circuit or of the source).  inl means the loop breaks or dies with
that result; inr carries the state, clock and recency flag into the next
iteration. -/
def loop_iteration (cfg : Config) (stop : Nat → Bool) (it : IterOracle)
    (s : ResearchState) (t : Nat) (rr : Bool) :
    LoopResult ⊕ ResearchState × Nat × Bool :=
  if cfg.max_queries ≤ s.total_rewritten_queries then .inl ⟨s, t, rr, .normal⟩
  else if stop t then .inl ⟨s, t + 1, rr, .normal⟩
  else
    match build_content_summary (s.searches.map SummaryInput.search) with
    | none =>
      .inl ⟨s, t + 1, rr, .fatal "AttributeError: SearchResult has no attribute page_type"⟩
    | some _ =>
      let rout := (rewrite_queries_task it.rewriter).1
      if stop (t + 1) then .inl ⟨s, t + 2, rr, .normal⟩
      else if rout.action = "stop" then .inl ⟨s, t + 2, rr, .normal⟩
      else
        let rr := rr || rout.requires_recency
        let qtp := rout.queries.take (cfg.max_queries - s.total_rewritten_queries)
        if qtp.isEmpty then .inl ⟨s, t + 2, rr, .normal⟩
        else
          let step := loop_batch_phase cfg stop it s t qtp
          if cfg.max_queries ≤ step.1.total_rewritten_queries then
            .inl ⟨step.1, step.2, rr, .normal⟩
          else if stop step.2 then .inl ⟨step.1, step.2 + 1, rr, .normal⟩
          else .inr (step.1, step.2 + 1, rr)

/-- _iterative_query_rewriting (workflow.py lines 521-702): iterate
loop_iteration until it breaks or the oracle list is exhausted (exhaustion
models the end of observation). -/
def rewrite_loop (cfg : Config) (stop : Nat → Bool) :
    List IterOracle → ResearchState → Nat → Bool → LoopResult
  | [], s, t, rr => ⟨s, t, rr, .normal⟩
  | it :: rest, s, t, rr =>
    match loop_iteration cfg stop it s t rr with
    | .inl res => res
    | .inr (s2, t2, rr2) => rewrite_loop cfg stop rest s2 t2 rr2

/-- The session state a loop-iteration outcome carries, whether the loop
breaks or continues. -/
def iteration_state : LoopResult ⊕ ResearchState × Nat × Bool → ResearchState
  | .inl res => res.state
  | .inr (s, _, _) => s

/-- The oracle inputs of one whole run. -/
structure WorkflowOracle where
  guardrail : GuardrailReply
  initial_search : Except String (List SearchResult × FilterReply)
  init_ext_outcomes : List ScrapeOutcome
  init_raw_outcomes : List (Except String String)
  iters : List IterOracle
  writer : Except String String

/-- Terminal outcome of a run: an unhandled exception, or the returned
status dictionary (workflow.py lines 816, 845-850, 876, 904-908). -/
inductive WfResult where
  | fatal (msg : String)
  | finished (status : String) (response : Option String) (sources : List ExtractedContent)
deriving DecidableEq

/-- Run outcome plus the writer-invocation count and the final session
state (including the ghost fields). -/
structure WfOut where
  result : WfResult
  writer_calls : Nat
  final_state : ResearchState
deriving DecidableEq

/-- The tail of research_workflow after the rewrite loop (workflow.py lines
890-908): generate the final response (synthesis runs here whatever the
stop flag says), then read the flag once to pick the status, returning the
full accepted collection as sources. -/
def workflow_tail (s : ResearchState) (stop_final : Bool)
    (writer : Except String String) : WfOut :=
  match generate_final_response s.extracted_content writer with
  | .error e => ⟨.fatal e, 1, s⟩
  | .ok (response, calls) =>
    ⟨.finished (if stop_final then "stopped" else "complete") (some response)
      s.extracted_content, calls, s⟩

/-- The segment of research_workflow from the rewrite loop on (workflow.py
lines 882-908): run the loop, propagate its fatal exit, otherwise run the
synthesis tail with the flag read at the final check index. -/
def workflow_after_initial (cfg : Config) (stop : Nat → Bool) (o : WorkflowOracle)
    (s2 : ResearchState) (t : Nat) : WfOut :=
  let lr := rewrite_loop cfg stop o.iters s2 t false
  match lr.exit with
  | .fatal m => ⟨.fatal m, 0, lr.state⟩
  | .normal => workflow_tail lr.state (stop lr.clock) o.writer

/-- research_workflow after the guardrail phase (workflow.py lines 852-908):
initial search and filter on the original query (855-871), whose failure
propagates uncaught; a stop check (874); the initial scrape batch (878);
the rewrite loop (882); and the synthesis tail.  t is the next stop-check
index. -/
def research_workflow_main (cfg : Config) (stop : Nat → Bool) (query : String)
    (o : WorkflowOracle) (s : ResearchState) (t : Nat) : WfOut :=
  match o.initial_search with
  | .error e => ⟨.fatal e, 0, s⟩
  | .ok (srs, reply) =>
    let r := search_and_filter cfg.max_filtered cfg.max_results query
      s.seen_urls srs reply
    let s1 := { s with
      seen_urls := s.seen_urls ++ r.2.1
      queries_executed := s.queries_executed ++ [query]
      searches := r.1
      replies_ok := s.replies_ok && r.2.2 }
    if stop t then ⟨.finished "stopped" none [], 0, s1⟩
    else
      let contrib :=
        if cfg.use_extraction then scrape_extract_accepted o.init_ext_outcomes
        else scrape_no_extraction_accepted r.1 o.init_raw_outcomes
      let s2 := { s1 with
        dispatched_scrapes := s1.dispatched_scrapes ++ r.1.map (·.url)
        extracted_content := s1.extracted_content ++ contrib }
      workflow_after_initial cfg stop o s2 (t + 1)

/-- research_workflow (workflow.py lines 755-912).  When guardrails are
enabled the guardrail collaborator runs first; the stop check after it
(line 814) consumes index 0 and short-circuits to stopped; an unacceptable
verdict returns rejected with no content (lines 833-850). -/
def research_workflow (cfg : Config) (stop : Nat → Bool) (query : String)
    (o : WorkflowOracle) : WfOut :=
  let s : ResearchState := { original_query := query }
  if cfg.use_guardrails then
    let g := (check_query_safety o.guardrail).1
    if stop 0 then ⟨.finished "stopped" none [], 0, s⟩
    else if ¬ g.is_acceptable then ⟨.finished "rejected" none [], 0, s⟩
    else research_workflow_main cfg stop query o s 1
  else research_workflow_main cfg stop query o s 0

/-- The no-refetch invariant over the ghost fields of the session state:
whenever every relevance-filter reply observed so far was well-formed
(pairwise distinct URLs drawn from the fresh results it was given), the
seen-URL list holds no duplicate, the scrape-dispatch history holds no
duplicate, and every dispatched URL is recorded as seen. -/
def UrlInvariant (s : ResearchState) : Prop :=
  s.replies_ok = true →
    s.seen_urls.Nodup ∧ s.dispatched_scrapes.Nodup ∧
    ∀ u ∈ s.dispatched_scrapes, u ∈ s.seen_urls

/-! ## Theorems -/

/-- C5 counterexample: the quality gate accepts an other-variant item whose
content is 60 characters but a single word, although the claimed
characterization requires the minimum word count for every text variant.
The claimed if-and-only-if is therefore false on the code. -/
theorem c5_counterexample :
    has_meaningful_content (.other "t" "u" (String.mk (List.replicate 60 'a'))) = true ∧
    (pyWords (String.mk (List.replicate 60 'a'))).length < MIN_MEANINGFUL_WORDS := by
  decide

/-- C5 (amended): the quality gate accepts an article exactly when its
content is non-empty, has at least 50 characters after stripping and at
least 10 whitespace-separated words; it accepts forum_post and other
variants exactly when the content is non-empty with at least 50 stripped
characters (no word-count requirement); it accepts a product exactly when
the name or the description is present and non-empty; and it accepts a
directory exactly when it has at least one item. -/
theorem c5_quality_gate_characterization (t u c : String) (a d : Option String)
    (name price : Option String) (opts : List String) (descr : Option String)
    (feats replies : List String) (items : List DirectoryItem) :
    (has_meaningful_content (.article t u c a d) = true ↔
      (c ≠ "" ∧ MIN_CONTENT_LENGTH ≤ pyLen (pyStrip c) ∧
        MIN_MEANINGFUL_WORDS ≤ (pyWords c).length)) ∧
    (has_meaningful_content (.forumPost t u c a replies) = true ↔
      (c ≠ "" ∧ MIN_CONTENT_LENGTH ≤ pyLen (pyStrip c))) ∧
    (has_meaningful_content (.other t u c) = true ↔
      (c ≠ "" ∧ MIN_CONTENT_LENGTH ≤ pyLen (pyStrip c))) ∧
    (has_meaningful_content (.product t u name price opts descr feats) = true ↔
      ((name ≠ none ∧ name ≠ some "") ∨ (descr ≠ none ∧ descr ≠ some ""))) ∧
    (has_meaningful_content (.directory t u items) = true ↔ items ≠ []) := by
  refine ⟨?_, ?_, ?_, ?_, ?_⟩
  · simp [has_meaningful_content, not_or, Nat.not_lt, and_assoc]
  · simp [has_meaningful_content, not_or, Nat.not_lt]
  · simp [has_meaningful_content, not_or, Nat.not_lt]
  · cases name <;> cases descr <;> simp [has_meaningful_content, pyFalsyOptStr]
  · simp [has_meaningful_content]

/-- C6 counterexample: on a rewrite reply that fails to parse, the task
makes exactly one collaborator call (not the claimed two) and returns a
normal continue decision from the plain-text fallback instead of failing;
the guardrail likewise makes one call and fails open.  The claimed
retry-once-then-fatal behaviour is therefore false on the code. -/
theorem c6_counterexample :
    (rewrite_queries_task (.parseFail "alpha\nbeta")).2.2 = 1 ∧
    (rewrite_queries_task (.parseFail "alpha\nbeta")).1 =
      ⟨"continue", false, [⟨"alpha", none, none⟩, ⟨"beta", none, none⟩]⟩ ∧
    (check_query_safety .parseFail).2.2 = 1 ∧
    (check_query_safety .parseFail).1.is_acceptable = true := by
  decide

/-- C6 (amended): a structured reply that fails to parse is never retried:
both tasks perform exactly one collaborator call.  The rewriter falls back
to reading the reply as plain text, stopping when the uppercased reply is
STOP and otherwise continuing with at most three line-derived queries; the
guardrail fails open, accepting the query.  No parse failure is fatal. -/
theorem c6_parse_failure_no_retry (content : String) :
    (rewrite_queries_task (.parseFail content)).2.2 = 1 ∧
    (rewrite_queries_task (.parseFail content)).2.1 = false ∧
    (rewrite_queries_task (.parseFail content)).1.action =
      (if pyUpper content = "STOP" then "stop" else "continue") ∧
    (rewrite_queries_task (.parseFail content)).1.queries.length ≤ 3 ∧
    (check_query_safety .parseFail).2.2 = 1 ∧
    (check_query_safety .parseFail).1 = ⟨true, "Unable to evaluate query safety", 0⟩ := by
  unfold rewrite_queries_task check_query_safety
  by_cases h : pyUpper content = "STOP" <;>
    simp [h, List.length_take]

/-- C7: the code evaluated at the failing input.  The rewrite loop hands
state.searches, a list of SearchResult values, to _build_content_summary,
which reads page_type from every element; SearchResult has no such
attribute, so with any non-empty accumulated search list the digest raises
AttributeError (modelled as none) and the iteration dies fatally before the
rewrite collaborator is ever invoked. -/
theorem c7_digest_attribute_error :
    build_content_summary [SummaryInput.search ⟨"t", "http://u", "s"⟩] = none ∧
    (rewrite_loop ⟨3, 10, 3, false, false⟩ (fun _ => false) [⟨.parseFail "x", [], [], []⟩]
      { original_query := "q", searches := [⟨"t", "http://u", "s"⟩] } 0 false).exit =
      .fatal "AttributeError: SearchResult has no attribute page_type" := by
  decide

/-- C4 counterexample: with extraction disabled, a scraped page whose
content is the 5-character string short is appended to the accepted
collection even though it fails its quality gate.  The claimed
gate-on-every-append is therefore false in that configuration. -/
theorem c4_counterexample :
    scrape_no_extraction_accepted [⟨"T", "http://e/a", "s"⟩] [.ok "short"] =
      [.other "T" "http://e/a" "short"] ∧
    has_meaningful_content (.other "T" "http://e/a" "short") = false := by
  decide

/-- C4 (amended): every element appended by an extraction-enabled batch
passes its quality gate at the moment of the append; in the
extraction-disabled configuration the gate is not applied, and the batch
appends exactly OtherContent wrappers of the non-empty fetched pages. -/
theorem c4_quality_gate_amended :
    (∀ (outcomes : List ScrapeOutcome) (c : ExtractedContent),
      c ∈ scrape_extract_accepted outcomes → has_meaningful_content c = true) ∧
    (∀ (results : List SearchResult) (fetches : List (Except String String))
      (c : ExtractedContent), c ∈ scrape_no_extraction_accepted results fetches →
      ∃ r content, r ∈ results ∧ c = .other r.title r.url content ∧ content ≠ "") := by
  constructor
  · intro outcomes c hc
    simp only [scrape_extract_accepted, List.mem_filterMap] at hc
    obtain ⟨o, _, ho⟩ := hc
    cases o with
    | extracted c0 =>
      by_cases hq : has_meaningful_content c0 = true
      · simp only [hq, if_true] at ho
        exact (Option.some.inj ho) ▸ hq
      · simp only [hq, if_false, Bool.false_eq_true] at ho
        exact absurd ho (by simp)
    | cancelled => simp at ho
    | scrapeFailed e => simp at ho
    | noExtraction e => simp at ho
  · intro results fetches c hc
    simp only [scrape_no_extraction_accepted, List.mem_filterMap] at hc
    obtain ⟨p, hp, hpc⟩ := hc
    cases hx : p.2 with
    | ok content =>
      rw [hx] at hpc
      by_cases hne : content ≠ ""
      · simp [hne] at hpc
        exact ⟨p.1, content, (List.of_mem_zip hp).1, hpc.symm, hne⟩
      · simp [hne] at hpc
    | error e => rw [hx] at hpc; simp at hpc

/-- C4 witness: the amended theorem applied at concrete inputs. -/
theorem c4_witness :
    has_meaningful_content
      (.other "T" "u" (String.mk (List.replicate 60 'a'))) = true ∧
    (∃ r content, r ∈ [SearchResult.mk "T" "u" "s"] ∧
      ExtractedContent.other "T" "u" "hello" = .other r.title r.url content ∧
      content ≠ "") := by
  constructor
  · exact c4_quality_gate_amended.1
      [.extracted (.other "T" "u" (String.mk (List.replicate 60 'a')))] _ (by decide)
  · exact c4_quality_gate_amended.2 [⟨"T", "u", "s"⟩] [.ok "hello"] _ (by decide)

/-- C10: when the accepted collection is empty at synthesis time, the
response is exactly the fixed fallback string and the writer collaborator
is invoked zero times, whatever reply it would have given. -/
theorem c10_empty_synthesis_fallback (writer : Except String String) :
    generate_final_response [] writer = .ok ("No content was gathered.", 0) := by
  rfl

/-- Inserting into the descending sort permutes the elements. -/
theorem sortedInsertDesc_perm (x : FilteredSearchResult)
    (l : List FilteredSearchResult) :
    List.Perm (sortedInsertDesc x l) (x :: l) := by
  induction l with
  | nil => simp [sortedInsertDesc]
  | cons y l ih =>
    by_cases h : y.relevance_score ≤ x.relevance_score
    · simp [sortedInsertDesc, h]
    · simp only [sortedInsertDesc, if_neg h]
      exact (ih.cons y).trans (List.Perm.swap x y l)

/-- The descending sort is a permutation of its input. -/
theorem pySortDesc_perm (l : List FilteredSearchResult) :
    List.Perm (pySortDesc l) l := by
  induction l with
  | nil => simp [pySortDesc]
  | cons x l ih =>
    exact (sortedInsertDesc_perm x (pySortDesc l)).trans (ih.cons x)

/-- Inserting into a descending-sorted list keeps it descending-sorted. -/
theorem sortedInsertDesc_pairwise (x : FilteredSearchResult)
    (l : List FilteredSearchResult)
    (h : List.Pairwise (fun a b => b.relevance_score ≤ a.relevance_score) l) :
    List.Pairwise (fun a b => b.relevance_score ≤ a.relevance_score)
      (sortedInsertDesc x l) := by
  induction l with
  | nil => simp [sortedInsertDesc]
  | cons y l ih =>
    rcases List.pairwise_cons.mp h with ⟨hy, hl⟩
    by_cases hle : y.relevance_score ≤ x.relevance_score
    · simp only [sortedInsertDesc, if_pos hle]
      refine List.pairwise_cons.mpr ⟨?_, h⟩
      intro z hz
      rcases List.mem_cons.mp hz with hz | hz
      · exact hz ▸ hle
      · exact (hy z hz).trans hle
    · simp only [sortedInsertDesc, if_neg hle]
      refine List.pairwise_cons.mpr ⟨?_, ih hl⟩
      intro z hz
      rcases List.mem_cons.mp ((sortedInsertDesc_perm x l).mem_iff.mp hz) with hz | hz
      · exact hz ▸ le_of_lt (lt_of_not_le hle)
      · exact hy z hz

/-- The descending sort is sorted: scores never increase along the list. -/
theorem pySortDesc_pairwise (l : List FilteredSearchResult) :
    List.Pairwise (fun a b => b.relevance_score ≤ a.relevance_score) (pySortDesc l) := by
  induction l with
  | nil => simp [pySortDesc]
  | cons x l ih => exact sortedInsertDesc_pairwise x (pySortDesc l) ih

/-- Filtering one score class through an insertion: the inserted element
lands in front of its own class because it only passes elements with
strictly greater scores. -/
theorem sortedInsertDesc_filter_score (x : FilteredSearchResult)
    (l : List FilteredSearchResult) (s : ℚ) :
    (sortedInsertDesc x l).filter (fun y => decide (y.relevance_score = s)) =
      if x.relevance_score = s then
        x :: l.filter (fun y => decide (y.relevance_score = s))
      else l.filter (fun y => decide (y.relevance_score = s)) := by
  induction l with
  | nil =>
    by_cases hx : x.relevance_score = s <;> simp [sortedInsertDesc, hx, List.filter]
  | cons y l ih =>
    simp only [sortedInsertDesc]
    by_cases hle : y.relevance_score ≤ x.relevance_score
    · rw [if_pos hle]
      simp only [List.filter_cons]
      by_cases hx : x.relevance_score = s
      · simp [hx]
      · simp [hx]
    · have hyx : x.relevance_score < y.relevance_score := lt_of_not_le hle
      rw [if_neg hle]
      simp only [List.filter_cons, ih]
      by_cases hx : x.relevance_score = s
      · have hy : ¬ (y.relevance_score = s) := fun hy =>
          absurd hyx (by rw [hx, hy]; exact lt_irrefl s)
        simp [hx, hy]
      · by_cases hy : y.relevance_score = s <;> simp [hx, hy]

/-- Stability of the descending sort: each score class keeps its original
relative order. -/
theorem pySortDesc_filter_score (l : List FilteredSearchResult) (s : ℚ) :
    (pySortDesc l).filter (fun y => decide (y.relevance_score = s)) =
      l.filter (fun y => decide (y.relevance_score = s)) := by
  induction l with
  | nil => simp [pySortDesc]
  | cons x l ih =>
    by_cases hx : x.relevance_score = s <;>
      simp [pySortDesc, sortedInsertDesc_filter_score, hx, List.filter, ih]

/-- C9: on every filter invocation whose collaborator reply parses (and
whose clean result list is non-empty, so the collaborator is actually
consulted), the returned relevant results are the stable descending sort of
the parsed items truncated to the configured top k: they are sorted by
non-increasing relevance score, the list has length at most k, the sort is
a permutation, and every score class keeps its original input order. -/
theorem c9_filter_sorted_stable_truncated (k : Nat) (q : String)
    (srs : List SearchResult) (items : List FilteredSearchResult)
    (h : (srs.filter (fun r => ¬ is_ad_or_tracking_url r.url)).isEmpty = false) :
    (filter_search_results_by_titles k q srs (.parsed items)).1.relevant_results =
      (pySortDesc items).take k ∧
    List.Pairwise (fun a b => b.relevance_score ≤ a.relevance_score)
      ((filter_search_results_by_titles k q srs (.parsed items)).1.relevant_results) ∧
    ((filter_search_results_by_titles k q srs (.parsed items)).1.relevant_results).length ≤ k ∧
    List.Perm (pySortDesc items) items ∧
    (∀ s : ℚ, (pySortDesc items).filter (fun y => decide (y.relevance_score = s)) =
      items.filter (fun y => decide (y.relevance_score = s))) := by
  have hout : (filter_search_results_by_titles k q srs (.parsed items)).1.relevant_results =
      (pySortDesc items).take k := by
    simp only [filter_search_results_by_titles]
    rw [h]
    rfl
  refine ⟨hout, ?_, ?_, pySortDesc_perm items, fun s => pySortDesc_filter_score items s⟩
  · rw [hout]
    exact (pySortDesc_pairwise items).sublist (List.take_sublist k _)
  · rw [hout]
    exact (List.length_take k _).trans_le (min_le_left _ _)

/-- C9 witness: the theorem applied at a concrete parsed reply with a tie. -/
theorem c9_witness :
    (filter_search_results_by_titles 3 "q" [⟨"t", "http://u", "s"⟩]
      (.parsed [⟨"a", "ua", "s", (1 : ℚ)⟩, ⟨"b", "ub", "s", (2 : ℚ)⟩,
        ⟨"c", "uc", "s", (1 : ℚ)⟩])).1.relevant_results =
      (pySortDesc [⟨"a", "ua", "s", (1 : ℚ)⟩, ⟨"b", "ub", "s", (2 : ℚ)⟩,
        ⟨"c", "uc", "s", (1 : ℚ)⟩]).take 3 ∧
    List.Pairwise (fun a b => b.relevance_score ≤ a.relevance_score)
      ((filter_search_results_by_titles 3 "q" [⟨"t", "http://u", "s"⟩]
        (.parsed [⟨"a", "ua", "s", (1 : ℚ)⟩, ⟨"b", "ub", "s", (2 : ℚ)⟩,
          ⟨"c", "uc", "s", (1 : ℚ)⟩])).1.relevant_results) ∧
    ((filter_search_results_by_titles 3 "q" [⟨"t", "http://u", "s"⟩]
      (.parsed [⟨"a", "ua", "s", (1 : ℚ)⟩, ⟨"b", "ub", "s", (2 : ℚ)⟩,
        ⟨"c", "uc", "s", (1 : ℚ)⟩])).1.relevant_results).length ≤ 3 ∧
    List.Perm (pySortDesc [⟨"a", "ua", "s", (1 : ℚ)⟩, ⟨"b", "ub", "s", (2 : ℚ)⟩,
      ⟨"c", "uc", "s", (1 : ℚ)⟩])
      [⟨"a", "ua", "s", (1 : ℚ)⟩, ⟨"b", "ub", "s", (2 : ℚ)⟩, ⟨"c", "uc", "s", (1 : ℚ)⟩] ∧
    (∀ s : ℚ, (pySortDesc [⟨"a", "ua", "s", (1 : ℚ)⟩, ⟨"b", "ub", "s", (2 : ℚ)⟩,
        ⟨"c", "uc", "s", (1 : ℚ)⟩]).filter (fun y => decide (y.relevance_score = s)) =
      [FilteredSearchResult.mk "a" "ua" "s" (1 : ℚ), ⟨"b", "ub", "s", (2 : ℚ)⟩,
        ⟨"c", "uc", "s", (1 : ℚ)⟩].filter (fun y => decide (y.relevance_score = s))) :=
  c9_filter_sorted_stable_truncated 3 "q" [⟨"t", "http://u", "s"⟩]
    [⟨"a", "ua", "s", (1 : ℚ)⟩, ⟨"b", "ub", "s", (2 : ℚ)⟩, ⟨"c", "uc", "s", (1 : ℚ)⟩]
    (by decide)

/-- Merging a batch adds exactly one to the rewritten-query counter per
successfully merged query. -/
theorem update_state_from_batch_total (s : ResearchState) (bs : List BatchSuccess) :
    (update_state_from_batch s bs).total_rewritten_queries =
      s.total_rewritten_queries + bs.length := by
  induction bs generalizing s with
  | nil => rfl
  | cons b bs ih =>
    have hstep : update_state_from_batch s (b :: bs) =
        update_state_from_batch
          { s with
            queries_executed := s.queries_executed ++ [b.query]
            total_rewritten_queries := s.total_rewritten_queries + 1
            searches := s.searches ++ b.filtered_results
            seen_urls := add_new_urls s.seen_urls b.new_urls } bs := rfl
    rw [hstep, ih]
    simp
    omega

/-- The dispatched batch has one entry per clamped query. -/
theorem run_batch_queries_length (k m : Nat) (snap : List String)
    (qs : List QueryWithFilter) (os : List QueryOutcome) :
    (run_batch_queries k m snap qs os).length = qs.length := by
  induction qs generalizing os with
  | nil => cases os <;> rfl
  | cons q qs ih =>
    cases os with
    | nil => simp [run_batch_queries, ih]
    | cons o os => simp [run_batch_queries, ih]

/-- The batch phase raises the counter by at most the number of clamped
queries, whatever the scrape segment does. -/
theorem loop_batch_phase_total (cfg : Config) (stop : Nat → Bool) (it : IterOracle)
    (s : ResearchState) (t : Nat) (qtp : List QueryWithFilter) :
    (loop_batch_phase cfg stop it s t qtp).1.total_rewritten_queries ≤
      s.total_rewritten_queries + qtp.length := by
  have hlen : (((run_batch_queries cfg.max_filtered cfg.max_results s.seen_urls qtp
      it.query_outcomes).filterMap id).map (·.1)).length ≤ qtp.length := by
    rw [List.length_map]
    exact (List.length_filterMap_le _ _).trans
      (run_batch_queries_length _ _ _ _ _).le
  have key : (loop_batch_phase cfg stop it s t qtp).1.total_rewritten_queries =
      s.total_rewritten_queries +
      (((run_batch_queries cfg.max_filtered cfg.max_results s.seen_urls qtp
        it.query_outcomes).filterMap id).map (·.1)).length := by
    simp only [loop_batch_phase]
    split
    · exact update_state_from_batch_total s _
    · split
      · exact update_state_from_batch_total s _
      · exact update_state_from_batch_total s _
  rw [key]
  exact Nat.add_le_add_left hlen _

/-- One loop iteration preserves the budget bound, whether it breaks or
continues: the clamp to the remaining budget caps the merge. -/
theorem loop_iteration_budget (cfg : Config) (stop : Nat → Bool) (it : IterOracle)
    (s : ResearchState) (t : Nat) (rr : Bool)
    (h : s.total_rewritten_queries ≤ cfg.max_queries) :
    (iteration_state (loop_iteration cfg stop it s t rr)).total_rewritten_queries ≤
      cfg.max_queries := by
  simp only [loop_iteration]
  split
  · exact h
  rename_i hbudget
  have hstep : ∀ qs : List QueryWithFilter,
      (loop_batch_phase cfg stop it s t
        (qs.take (cfg.max_queries - s.total_rewritten_queries))).1.total_rewritten_queries ≤
      cfg.max_queries := by
    intro qs
    refine (loop_batch_phase_total cfg stop it s t _).trans ?_
    have h1 : (qs.take (cfg.max_queries - s.total_rewritten_queries)).length ≤
        cfg.max_queries - s.total_rewritten_queries :=
      (List.length_take _ _).trans_le (min_le_left _ _)
    omega
  split
  · exact h
  · split
    · exact h
    · split
      · exact h
      · split
        · exact h
        · split
          · exact h
          · split
            · exact hstep _
            · split
              · exact hstep _
              · exact hstep _

/-- The rewrite loop preserves the budget bound on the rewritten-query
counter. -/
theorem rewrite_loop_budget (cfg : Config) (stop : Nat → Bool) (iters : List IterOracle)
    (s : ResearchState) (t : Nat) (rr : Bool)
    (h : s.total_rewritten_queries ≤ cfg.max_queries) :
    (rewrite_loop cfg stop iters s t rr).state.total_rewritten_queries ≤
      cfg.max_queries := by
  induction iters generalizing s t rr with
  | nil => exact h
  | cons it rest ih =>
    rw [rewrite_loop]
    have hb := loop_iteration_budget cfg stop it s t rr h
    cases hit : loop_iteration cfg stop it s t rr with
    | inl res =>
      rw [hit] at hb
      simp only [hit]
      exact hb
    | inr p =>
      rw [hit] at hb
      obtain ⟨s2, t2, rr2⟩ := p
      simp only [hit]
      exact ih s2 t2 rr2 hb

/-- The synthesis tail never changes the session state. -/
theorem workflow_tail_final_state (s : ResearchState) (b : Bool)
    (w : Except String String) : (workflow_tail s b w).final_state = s := by
  unfold workflow_tail
  split <;> rfl

/-- The post-loop segment preserves the budget bound. -/
theorem workflow_after_initial_total (cfg : Config) (stop : Nat → Bool)
    (o : WorkflowOracle) (s2 : ResearchState) (t : Nat)
    (h : s2.total_rewritten_queries ≤ cfg.max_queries) :
    (workflow_after_initial cfg stop o s2 t).final_state.total_rewritten_queries ≤
      cfg.max_queries := by
  simp only [workflow_after_initial]
  split
  · exact rewrite_loop_budget cfg stop o.iters _ _ _ h
  · rw [workflow_tail_final_state]
    exact rewrite_loop_budget cfg stop o.iters _ _ _ h

/-- The orchestrator main phase preserves the budget bound. -/
theorem research_workflow_main_total (cfg : Config) (stop : Nat → Bool) (q : String)
    (o : WorkflowOracle) (s : ResearchState) (t : Nat)
    (h : s.total_rewritten_queries ≤ cfg.max_queries) :
    (research_workflow_main cfg stop q o s t).final_state.total_rewritten_queries ≤
      cfg.max_queries := by
  simp only [research_workflow_main]
  split
  · exact h
  · split
    · exact h
    · exact workflow_after_initial_total cfg stop o _ _ h

/-- C2: the rewritten-query counter never exceeds the configured maximum.
Merging a batch increments the counter exactly once per successfully merged
query; every loop iteration clamps its batch to the remaining budget before
dispatching, so the bound is preserved at every iteration boundary of every
run (every reachable loop point is the end state of some oracle prefix);
and any full run ends with the counter at most the maximum. -/
theorem c2_rewrite_budget_invariant :
    (∀ (s : ResearchState) (bs : List BatchSuccess),
      (update_state_from_batch s bs).total_rewritten_queries =
        s.total_rewritten_queries + bs.length) ∧
    (∀ (cfg : Config) (stop : Nat → Bool) (iters : List IterOracle)
      (s : ResearchState) (t : Nat) (rr : Bool),
      s.total_rewritten_queries ≤ cfg.max_queries →
      (rewrite_loop cfg stop iters s t rr).state.total_rewritten_queries ≤
        cfg.max_queries) ∧
    (∀ (cfg : Config) (stop : Nat → Bool) (q : String) (o : WorkflowOracle),
      (research_workflow cfg stop q o).final_state.total_rewritten_queries ≤
        cfg.max_queries) := by
  refine ⟨update_state_from_batch_total, rewrite_loop_budget, ?_⟩
  intro cfg stop q o
  simp only [research_workflow]
  split
  · split
    · exact Nat.zero_le _
    · split
      · exact Nat.zero_le _
      · exact research_workflow_main_total cfg stop q o _ 1 (Nat.zero_le _)
  · exact research_workflow_main_total cfg stop q o _ 0 (Nat.zero_le _)

/-- C2 witness: the loop-preservation part applied at a concrete state and
oracle with the hypothesis discharged by evaluation. -/
theorem c2_witness :
    (rewrite_loop ⟨3, 10, 3, false, false⟩ (fun _ => false)
      [⟨.parseFail "a\nb", [some ([⟨"t", "http://u", "s"⟩],
        .parsed [⟨"t", "http://u", "s", (1 : ℚ)⟩])], [], [.ok "body"]⟩]
      { original_query := "q" } 0 false).state.total_rewritten_queries ≤ 3 :=
  c2_rewrite_budget_invariant.2.1 ⟨3, 10, 3, false, false⟩ (fun _ => false)
    [⟨.parseFail "a\nb", [some ([⟨"t", "http://u", "s"⟩],
      .parsed [⟨"t", "http://u", "s", (1 : ℚ)⟩])], [], [.ok "body"]⟩]
    { original_query := "q" } 0 false (by decide)

/-- C3 counterexample: a run whose stop flag is observed set at the
rewrite-loop boundary (every check from index 1 on) still invokes the
writer collaborator once and returns status stopped together with the
synthesized response.  The claim that no further stage work happens — in
particular that synthesis is not started — once the stop flag is observed
at a phase boundary is therefore false on the code. -/
theorem c3_counterexample :
    (research_workflow ⟨3, 10, 3, false, false⟩ (fun t => decide (1 ≤ t)) "q"
      ⟨.parseFail,
       .ok ([⟨"t", "http://u", "s"⟩], .parsed [⟨"t", "http://u", "s", (1 : ℚ)⟩]),
       [], [.ok (String.mk (List.replicate 60 'a'))],
       [⟨.parseFail "x", [], [], []⟩], .ok "ans"⟩).writer_calls = 1 ∧
    (research_workflow ⟨3, 10, 3, false, false⟩ (fun t => decide (1 ≤ t)) "q"
      ⟨.parseFail,
       .ok ([⟨"t", "http://u", "s"⟩], .parsed [⟨"t", "http://u", "s", (1 : ℚ)⟩]),
       [], [.ok (String.mk (List.replicate 60 'a'))],
       [⟨.parseFail "x", [], [], []⟩], .ok "ans"⟩).result =
      .finished "stopped" (some "ans")
        [.other "t" "http://u" (String.mk (List.replicate 60 'a'))] := by
  decide

/-- C3 (amended): cancellation observed at the guardrail boundary or at the
post-initial-search boundary short-circuits the run to status stopped with
no sources and no synthesis; but once the rewrite phase has ended,
synthesis always runs whatever the stop flag says — the writer is invoked
exactly once when the accepted collection is non-empty (zero times when it
is empty) — and only then is the flag read to pick between the stopped and
complete statuses, with sources exactly the accepted content in both
cases. -/
theorem c3_cancellation_amended :
    (∀ (cfg : Config) (stop : Nat → Bool) (q : String) (o : WorkflowOracle),
      cfg.use_guardrails = true → stop 0 = true →
      research_workflow cfg stop q o =
        ⟨.finished "stopped" none [], 0, { original_query := q }⟩) ∧
    (∀ (cfg : Config) (stop : Nat → Bool) (q : String) (o : WorkflowOracle)
      (srs : List SearchResult) (reply : FilterReply),
      cfg.use_guardrails = false → o.initial_search = .ok (srs, reply) →
      stop 0 = true →
      (research_workflow cfg stop q o).result = .finished "stopped" none [] ∧
      (research_workflow cfg stop q o).writer_calls = 0) ∧
    (∀ (s : ResearchState) (b : Bool) (resp : String),
      workflow_tail s b (.ok resp) =
        ⟨.finished (if b then "stopped" else "complete")
          (some (if s.extracted_content.isEmpty then "No content was gathered." else resp))
          s.extracted_content,
         (if s.extracted_content.isEmpty then 0 else 1), s⟩) := by
  refine ⟨?_, ?_, ?_⟩
  · intro cfg stop q o hga hstop
    simp [research_workflow, hga, hstop]
  · intro cfg stop q o srs reply hga hinit hstop
    simp [research_workflow, hga, research_workflow_main, hinit, hstop]
  · intro s b resp
    by_cases hempty : s.extracted_content.isEmpty
    · simp [workflow_tail, generate_final_response, hempty]
    · simp [workflow_tail, generate_final_response, hempty]

/-- C3 witness: the three parts of the amended theorem applied at concrete
inputs, with every hypothesis discharged by evaluation. -/
theorem c3_witness :
    (research_workflow ⟨3, 10, 3, false, true⟩ (fun _ => true) "q"
      ⟨.parseFail, .error "e", [], [], [], .ok "a"⟩ =
        ⟨.finished "stopped" none [], 0, { original_query := "q" }⟩) ∧
    ((research_workflow ⟨3, 10, 3, false, false⟩ (fun _ => true) "q"
      ⟨.parseFail, .ok ([], .parseFail), [], [], [], .ok "a"⟩).result =
        .finished "stopped" none [] ∧
     (research_workflow ⟨3, 10, 3, false, false⟩ (fun _ => true) "q"
      ⟨.parseFail, .ok ([], .parseFail), [], [], [], .ok "a"⟩).writer_calls = 0) ∧
    (workflow_tail
        { original_query := "q", extracted_content := [.other "t" "http://u" "c"] }
        true (.ok "ans") =
      ⟨.finished (if true then "stopped" else "complete")
        (some (if ([ExtractedContent.other "t" "http://u" "c"]).isEmpty then
          "No content was gathered." else "ans"))
        [.other "t" "http://u" "c"],
       (if ([ExtractedContent.other "t" "http://u" "c"]).isEmpty then 0 else 1),
       { original_query := "q", extracted_content := [.other "t" "http://u" "c"] }⟩) :=
  ⟨c3_cancellation_amended.1 ⟨3, 10, 3, false, true⟩ (fun _ => true) "q"
      ⟨.parseFail, .error "e", [], [], [], .ok "a"⟩ (by decide) (by decide),
   c3_cancellation_amended.2.1 ⟨3, 10, 3, false, false⟩ (fun _ => true) "q"
      ⟨.parseFail, .ok ([], .parseFail), [], [], [], .ok "a"⟩ [] .parseFail
      (by decide) rfl (by decide),
   c3_cancellation_amended.2.2
      { original_query := "q", extracted_content := [.other "t" "http://u" "c"] }
      true "ans"⟩

/-- A loop iteration over a session with an empty accumulated search list
never breaks fatally: the only fatal exit is the digest AttributeError,
which only non-empty search lists trigger. -/
theorem loop_iteration_no_fatal (cfg : Config) (stop : Nat → Bool) (it : IterOracle)
    (s : ResearchState) (t : Nat) (rr : Bool) (hsearch : s.searches = []) :
    ∀ res, loop_iteration cfg stop it s t rr = .inl res → res.exit = .normal := by
  intro res
  simp only [loop_iteration, hsearch, List.map_nil]
  have hsum : build_content_summary [] = some "No content gathered yet." := rfl
  rw [hsum]
  repeat' split
  all_goals intro heq
  all_goals
    first
    | (exfalso; simp_all; done)
    | (injection heq with h2; rw [← h2])

/-- Merging a batch appends exactly the successful queries, in order, to
the executed-query list; failed siblings contribute nothing. -/
theorem update_state_from_batch_queries (s : ResearchState) (bs : List BatchSuccess) :
    (update_state_from_batch s bs).queries_executed =
      s.queries_executed ++ bs.map (·.query) := by
  induction bs generalizing s with
  | nil => simp [update_state_from_batch]
  | cons b bs ih =>
    have hstep : update_state_from_batch s (b :: bs) =
        update_state_from_batch
          { s with
            queries_executed := s.queries_executed ++ [b.query]
            total_rewritten_queries := s.total_rewritten_queries + 1
            searches := s.searches ++ b.filtered_results
            seen_urls := add_new_urls s.seen_urls b.new_urls } bs := rfl
    rw [hstep, ih]
    simp

/-- C8 counterexample: a failing initial search on the original query text
propagates out of the orchestrator uncaught and ends the run as a fatal
error, contradicting the claim that no single failing query ever ends the
session. -/
theorem c8_counterexample :
    research_workflow ⟨3, 10, 3, false, false⟩ (fun _ => false) "q"
      ⟨.parseFail, .error "search boom", [], [], [], .ok "ans"⟩ =
      ⟨.fatal "search boom", 0, { original_query := "q" }⟩ := by
  decide

/-- C8 (amended): a failing rewritten query inside a batch is isolated —
an iteration of the rewrite loop (over a session whose accumulated search
list is empty, so the digest step succeeds) never ends fatally whatever
the per-query outcomes are, and the merge appends exactly the successful
queries while failed siblings contribute nothing; but the failure of the
initial search on the original query text propagates uncaught and
terminates the whole run as a fatal error. -/
theorem c8_partial_failure_amended :
    (∀ (cfg : Config) (stop : Nat → Bool) (it : IterOracle) (s : ResearchState)
      (t : Nat) (rr : Bool), s.searches = [] →
      (rewrite_loop cfg stop [it] s t rr).exit = .normal) ∧
    (∀ (s : ResearchState) (bs : List BatchSuccess),
      (update_state_from_batch s bs).queries_executed =
        s.queries_executed ++ bs.map (·.query)) ∧
    (∀ (cfg : Config) (stop : Nat → Bool) (q : String) (o : WorkflowOracle)
      (e : String), cfg.use_guardrails = false → o.initial_search = .error e →
      research_workflow cfg stop q o = ⟨.fatal e, 0, { original_query := q }⟩) := by
  refine ⟨?_, update_state_from_batch_queries, ?_⟩
  · intro cfg stop it s t rr hsearch
    rw [rewrite_loop]
    cases hit : loop_iteration cfg stop it s t rr with
    | inl res =>
      simp only [hit]
      exact loop_iteration_no_fatal cfg stop it s t rr hsearch res hit
    | inr p =>
      obtain ⟨s2, t2, rr2⟩ := p
      simp only [hit]
      rfl
  · intro cfg stop q o e hga hinit
    simp [research_workflow, hga, research_workflow_main, hinit]

/-- C8 witness: the amended theorem applied at concrete inputs, including a
batch whose first query fails while its sibling succeeds. -/
theorem c8_witness :
    (rewrite_loop ⟨3, 10, 3, false, false⟩ (fun _ => false)
      [⟨.parseFail "qa\nqb", [none, some ([⟨"t", "http://u", "s"⟩],
        .parsed [⟨"t", "http://u", "s", (1 : ℚ)⟩])], [], [.ok "body"]⟩]
      { original_query := "q" } 0 false).exit = .normal ∧
    (update_state_from_batch { original_query := "q" }
      [⟨"qb", [⟨"t", "http://u", "s"⟩], ["http://u"]⟩]).queries_executed =
      ({ original_query := "q" } : ResearchState).queries_executed ++
        [BatchSuccess.mk "qb" [⟨"t", "http://u", "s"⟩] ["http://u"]].map (·.query) ∧
    research_workflow ⟨3, 10, 3, false, false⟩ (fun _ => false) "q"
      ⟨.parseFail, .error "boom", [], [], [], .ok "ans"⟩ =
      ⟨.fatal "boom", 0, { original_query := "q" }⟩ :=
  ⟨c8_partial_failure_amended.1 ⟨3, 10, 3, false, false⟩ (fun _ => false)
      ⟨.parseFail "qa\nqb", [none, some ([⟨"t", "http://u", "s"⟩],
        .parsed [⟨"t", "http://u", "s", (1 : ℚ)⟩])], [], [.ok "body"]⟩
      { original_query := "q" } 0 false rfl,
   c8_partial_failure_amended.2.1 { original_query := "q" }
      [⟨"qb", [⟨"t", "http://u", "s"⟩], ["http://u"]⟩],
   c8_partial_failure_amended.2.2 ⟨3, 10, 3, false, false⟩ (fun _ => false) "q"
      ⟨.parseFail, .error "boom", [], [], [], .ok "ans"⟩ "boom" (by decide) rfl⟩

/-- The url list returned by the deduplication loop is the url projection
of its result list. -/
theorem dedupLoop_snd_map (m : Nat) (rs : List SearchResult) (seen : List String)
    (kept : Nat) :
    (dedupLoop m rs seen kept).2 = (dedupLoop m rs seen kept).1.map (·.url) := by
  induction rs generalizing seen kept with
  | nil => rfl
  | cons r rs ih =>
    simp only [dedupLoop]
    split
    · simp [ih]
    · exact ih _ _

/-- Deduplicated urls are fresh with respect to the incoming seen set. -/
theorem dedupLoop_fresh (m : Nat) (rs : List SearchResult) (seen : List String)
    (kept : Nat) :
    ∀ u ∈ (dedupLoop m rs seen kept).2, u ∉ seen := by
  induction rs generalizing seen kept with
  | nil => simp [dedupLoop]
  | cons r rs ih =>
    simp only [dedupLoop]
    split
    · rename_i hcond
      intro u hu
      rcases List.mem_cons.mp hu with rfl | hu
      · exact hcond.1
      · exact fun hseen => ih (r.url :: seen) (kept + 1) u hu
          (List.mem_cons_of_mem _ hseen)
    · exact ih _ _

/-- Deduplicated urls are pairwise distinct. -/
theorem dedupLoop_nodup (m : Nat) (rs : List SearchResult) (seen : List String)
    (kept : Nat) : (dedupLoop m rs seen kept).2.Nodup := by
  induction rs generalizing seen kept with
  | nil => simp [dedupLoop]
  | cons r rs ih =>
    simp only [dedupLoop]
    split
    · refine List.nodup_cons.mpr ⟨?_, ih _ _⟩
      intro hmem
      exact dedupLoop_fresh m rs (r.url :: seen) (kept + 1) _ hmem
        (List.mem_cons_self _ _)
    · exact ih _ _

/-- deduplicate_search_results: urls are the url projection of the results. -/
theorem deduplicate_snd_map (srs : List SearchResult) (seen : List String) (m : Nat) :
    (deduplicate_search_results srs seen m).2 =
      (deduplicate_search_results srs seen m).1.map (·.url) :=
  dedupLoop_snd_map m srs seen 0

/-- deduplicate_search_results: urls are fresh for the incoming seen set. -/
theorem deduplicate_fresh (srs : List SearchResult) (seen : List String) (m : Nat) :
    ∀ u ∈ (deduplicate_search_results srs seen m).2, u ∉ seen :=
  dedupLoop_fresh m srs seen 0

/-- The boolean no-duplicates test agrees with Nodup. -/
theorem nodupB_iff (l : List String) : nodupB l = true ↔ l.Nodup := by
  induction l with
  | nil => simp [nodupB]
  | cons u l ih => simp [nodupB, ih]

/-- The boolean containment test gives membership. -/
theorem allMemB_of (l1 l2 : List String) (h : allMemB l1 l2 = true) :
    ∀ u ∈ l1, u ∈ l2 :=
  of_decide_eq_true h

/-- The url component of _search_and_filter is the url projection of the
accepted results. -/
theorem search_and_filter_urls (k m : Nat) (q : String) (seen : List String)
    (srs : List SearchResult) (reply : FilterReply) :
    (search_and_filter k m q seen srs reply).2.1 =
      (search_and_filter k m q seen srs reply).1.map (·.url) := by
  simp only [search_and_filter]
  split
  · rfl
  · rfl

/-- A well-formed search-and-filter call returns pairwise distinct urls,
all fresh with respect to the snapshot it deduplicated against. -/
theorem search_and_filter_wf (k m : Nat) (q : String) (seen : List String)
    (srs : List SearchResult) (reply : FilterReply)
    (h : (search_and_filter k m q seen srs reply).2.2 = true) :
    (search_and_filter k m q seen srs reply).2.1.Nodup ∧
    ∀ u ∈ (search_and_filter k m q seen srs reply).2.1, u ∉ seen := by
  revert h
  simp only [search_and_filter]
  split
  · intro _
    exact ⟨List.nodup_nil, by simp⟩
  · intro h
    simp only [Bool.and_eq_true] at h
    obtain ⟨h1, h2⟩ := h
    refine ⟨(nodupB_iff _).mp h1, ?_⟩
    intro u hu
    have hnew : u ∈ ((deduplicate_search_results srs seen m).1.map (·.url)) :=
      allMemB_of _ _ h2 u hu
    rw [← deduplicate_snd_map] at hnew
    exact deduplicate_fresh srs seen m u hnew

/-- Appending fresh urls one by one preserves Nodup. -/
theorem add_new_urls_nodup (seen urls : List String) (h : seen.Nodup) :
    (add_new_urls seen urls).Nodup := by
  induction urls generalizing seen with
  | nil => exact h
  | cons u urls ih =>
    show (add_new_urls (if u ∈ seen then seen else seen ++ [u]) urls).Nodup
    by_cases hu : u ∈ seen
    · rw [if_pos hu]
      exact ih seen h
    · rw [if_neg hu]
      refine ih _ (List.Nodup.append h (List.nodup_singleton u) ?_)
      intro a ha hb
      rw [List.mem_singleton] at hb
      exact hu (hb ▸ ha)

/-- The seen set only grows under the url merge. -/
theorem mem_add_new_urls_left (seen urls : List String) (u : String)
    (h : u ∈ seen) : u ∈ add_new_urls seen urls := by
  induction urls generalizing seen with
  | nil => exact h
  | cons v urls ih =>
    show u ∈ add_new_urls (if v ∈ seen then seen else seen ++ [v]) urls
    by_cases hv : v ∈ seen
    · rw [if_pos hv]; exact ih seen h
    · rw [if_neg hv]; exact ih _ (List.mem_append_left _ h)

/-- Every merged url ends up in the seen set. -/
theorem mem_add_new_urls_right (seen urls : List String) (u : String)
    (h : u ∈ urls) : u ∈ add_new_urls seen urls := by
  induction urls generalizing seen with
  | nil => simp at h
  | cons v urls ih =>
    show u ∈ add_new_urls (if v ∈ seen then seen else seen ++ [v]) urls
    rcases List.mem_cons.mp h with rfl | h
    · by_cases hv : u ∈ seen
      · rw [if_pos hv]; exact mem_add_new_urls_left seen urls u hv
      · rw [if_neg hv]
        exact mem_add_new_urls_left _ urls u (List.mem_append_right _ (List.mem_singleton_self u))
    · by_cases hv : v ∈ seen
      · rw [if_pos hv]; exact ih seen h
      · rw [if_neg hv]; exact ih _ h

/-- Every result kept by the batch-scrape deduplication comes from the
batch. -/
theorem dedup_by_url_mem (rs : List SearchResult) (acc : List String) :
    ∀ r ∈ dedup_by_url rs acc, r ∈ rs := by
  induction rs generalizing acc with
  | nil => simp [dedup_by_url]
  | cons r rs ih =>
    simp only [dedup_by_url]
    split
    · intro x hx
      exact List.mem_cons_of_mem _ (ih acc x hx)
    · intro x hx
      rcases List.mem_cons.mp hx with rfl | hx
      · exact List.mem_cons_self _ _
      · exact List.mem_cons_of_mem _ (ih _ x hx)

/-- The batch-scrape deduplication yields pairwise distinct urls, none of
them in the incoming accumulator. -/
theorem dedup_by_url_map_nodup (rs : List SearchResult) (acc : List String) :
    ((dedup_by_url rs acc).map (·.url)).Nodup ∧
    ∀ u ∈ (dedup_by_url rs acc).map (·.url), u ∉ acc := by
  induction rs generalizing acc with
  | nil => simp [dedup_by_url]
  | cons r rs ih =>
    simp only [dedup_by_url]
    split
    · exact ih acc
    · rename_i hacc
      constructor
      · refine List.nodup_cons.mpr ⟨?_, (ih (r.url :: acc)).1⟩
        intro hmem
        exact (ih (r.url :: acc)).2 _ hmem (List.mem_cons_self _ _)
      · intro u hu
        rcases List.mem_cons.mp hu with rfl | hu
        · exact hacc
        · exact fun h => (ih (r.url :: acc)).2 u hu (List.mem_cons_of_mem _ h)

/-- Every successful entry of a dispatched batch is built by
search_and_filter against the shared snapshot: its url list is the url
projection of its results, and when its ghost flag is set the urls are
pairwise distinct and fresh for the snapshot. -/
theorem run_batch_queries_success (k m : Nat) (snap : List String)
    (qs : List QueryWithFilter) (os : List QueryOutcome) :
    ∀ x ∈ run_batch_queries k m snap qs os, ∀ bf : BatchSuccess × Bool,
      x = some bf →
      bf.1.new_urls = bf.1.filtered_results.map (·.url) ∧
      (bf.2 = true → bf.1.new_urls.Nodup ∧ ∀ u ∈ bf.1.new_urls, u ∉ snap) := by
  induction qs generalizing os with
  | nil => simp [run_batch_queries]
  | cons q qs ih =>
    cases os with
    | nil =>
      intro x hx bf hbf
      rcases List.mem_cons.mp hx with rfl | hx
      · exact absurd hbf (by simp)
      · exact ih [] x hx bf hbf
    | cons o os =>
      intro x hx bf hbf
      rcases List.mem_cons.mp hx with rfl | hx
      · cases o with
        | none => exact absurd hbf (by simp)
        | some p =>
          obtain ⟨srs, reply⟩ := p
          have hbf2 : bf = (⟨q.query,
              (search_and_filter k m q.query snap srs reply).1,
              (search_and_filter k m q.query snap srs reply).2.1⟩,
              (search_and_filter k m q.query snap srs reply).2.2) :=
            (Option.some.inj hbf).symm
          subst hbf2
          refine ⟨search_and_filter_urls k m q.query snap srs reply, ?_⟩
          intro hflag
          exact search_and_filter_wf k m q.query snap srs reply hflag
      · exact ih os x hx bf hbf

/-- The batch merge never touches the ghost reply flag. -/
theorem update_state_from_batch_replies (s : ResearchState) (bs : List BatchSuccess) :
    (update_state_from_batch s bs).replies_ok = s.replies_ok := by
  induction bs generalizing s with
  | nil => rfl
  | cons b bs ih =>
    exact (ih _).trans rfl

/-- The batch merge preserves a duplicate-free seen list. -/
theorem update_state_from_batch_seen_nodup (s : ResearchState) (bs : List BatchSuccess)
    (h : s.seen_urls.Nodup) : (update_state_from_batch s bs).seen_urls.Nodup := by
  induction bs generalizing s with
  | nil => exact h
  | cons b bs ih =>
    exact ih _ (add_new_urls_nodup s.seen_urls b.new_urls h)

/-- The seen list only grows under the batch merge. -/
theorem update_state_from_batch_seen_mono (s : ResearchState) (bs : List BatchSuccess)
    (u : String) (h : u ∈ s.seen_urls) :
    u ∈ (update_state_from_batch s bs).seen_urls := by
  induction bs generalizing s with
  | nil => exact h
  | cons b bs ih =>
    exact ih _ (mem_add_new_urls_left s.seen_urls b.new_urls u h)

/-- Every url of every merged success ends up in the seen list. -/
theorem update_state_from_batch_seen_of_urls (s : ResearchState)
    (bs : List BatchSuccess) (u : String) (h : ∃ b ∈ bs, u ∈ b.new_urls) :
    u ∈ (update_state_from_batch s bs).seen_urls := by
  induction bs generalizing s with
  | nil => simp at h
  | cons b bs ih =>
    obtain ⟨b0, hb0, hu⟩ := h
    rcases List.mem_cons.mp hb0 with rfl | hb0
    · exact update_state_from_batch_seen_mono _ bs u
        (mem_add_new_urls_right s.seen_urls b0.new_urls u hu)
    · exact ih _ ⟨b0, hb0, hu⟩

/-- The batch merge does not touch the dispatch history. -/
theorem update_state_from_batch_dispatched (s : ResearchState) (bs : List BatchSuccess) :
    (update_state_from_batch s bs).dispatched_scrapes = s.dispatched_scrapes := by
  induction bs generalizing s with
  | nil => rfl
  | cons b bs ih =>
    exact (ih _).trans rfl

/-- The batch phase ends in one of two states: the merged state, or the
merged state extended by the deduplicated batch scrape. -/
theorem loop_batch_phase_result (cfg : Config) (stop : Nat → Bool) (it : IterOracle)
    (s : ResearchState) (t : Nat) (qtp : List QueryWithFilter) :
    ((loop_batch_phase cfg stop it s t qtp).1 =
      { update_state_from_batch s (((run_batch_queries cfg.max_filtered cfg.max_results
          s.seen_urls qtp it.query_outcomes).filterMap id).map (·.1)) with
        replies_ok := (update_state_from_batch s (((run_batch_queries cfg.max_filtered
          cfg.max_results s.seen_urls qtp it.query_outcomes).filterMap id).map
            (·.1))).replies_ok &&
          ((run_batch_queries cfg.max_filtered cfg.max_results s.seen_urls qtp
            it.query_outcomes).filterMap id).all (·.2) }) ∨
    ((loop_batch_phase cfg stop it s t qtp).1 =
      { update_state_from_batch s (((run_batch_queries cfg.max_filtered cfg.max_results
          s.seen_urls qtp it.query_outcomes).filterMap id).map (·.1)) with
        replies_ok := (update_state_from_batch s (((run_batch_queries cfg.max_filtered
          cfg.max_results s.seen_urls qtp it.query_outcomes).filterMap id).map
            (·.1))).replies_ok &&
          ((run_batch_queries cfg.max_filtered cfg.max_results s.seen_urls qtp
            it.query_outcomes).filterMap id).all (·.2)
        dispatched_scrapes := (update_state_from_batch s (((run_batch_queries
          cfg.max_filtered cfg.max_results s.seen_urls qtp
          it.query_outcomes).filterMap id).map (·.1))).dispatched_scrapes ++
          (collect_results_to_scrape (((run_batch_queries cfg.max_filtered
            cfg.max_results s.seen_urls qtp it.query_outcomes).filterMap id).map
              (·.1))).map (·.url)
        extracted_content := (update_state_from_batch s (((run_batch_queries
          cfg.max_filtered cfg.max_results s.seen_urls qtp
          it.query_outcomes).filterMap id).map (·.1))).extracted_content ++
          (if cfg.use_extraction then scrape_extract_accepted it.ext_outcomes
           else scrape_no_extraction_accepted
             (collect_results_to_scrape (((run_batch_queries cfg.max_filtered
               cfg.max_results s.seen_urls qtp it.query_outcomes).filterMap id).map
                 (·.1))) it.raw_outcomes) }) := by
  simp only [loop_batch_phase]
  split
  · exact Or.inl rfl
  · split
    · exact Or.inl rfl
    · exact Or.inr rfl

/-- The batch phase of one rewrite iteration preserves the no-refetch
invariant: successful results are merged before the batch scrape is
dispatched, the batch scrape deduplicates its urls, and under well-formed
filter replies every dispatched url is fresh. -/
theorem loop_batch_phase_inv (cfg : Config) (stop : Nat → Bool) (it : IterOracle)
    (s : ResearchState) (t : Nat) (qtp : List QueryWithFilter)
    (hinv : UrlInvariant s) :
    UrlInvariant (loop_batch_phase cfg stop it s t qtp).1 := by
  set B := run_batch_queries cfg.max_filtered cfg.max_results s.seen_urls qtp
    it.query_outcomes with hB
  set S := B.filterMap id with hS
  set bs := S.map (·.1) with hbs
  have hsucc : ∀ b ∈ bs, b.new_urls = b.filtered_results.map (·.url) ∧
      (S.all (·.2) = true → b.new_urls.Nodup ∧ ∀ u ∈ b.new_urls, u ∉ s.seen_urls) := by
    intro b hb
    rw [hbs] at hb
    obtain ⟨x, hxS, hx1⟩ := List.mem_map.mp hb
    have hxB : some x ∈ B := by
      rw [hS] at hxS
      obtain ⟨o, hoB, ho⟩ := List.mem_filterMap.mp hxS
      exact ho ▸ hoB
    have hrun := run_batch_queries_success cfg.max_filtered cfg.max_results s.seen_urls
      qtp it.query_outcomes (some x) hxB x rfl
    refine ⟨hx1 ▸ hrun.1, fun hall => hx1 ▸ hrun.2 ?_⟩
    exact (List.all_eq_true.mp hall) x hxS
  have hL : ∀ u ∈ (collect_results_to_scrape bs).map (·.url),
      ∃ b ∈ bs, u ∈ b.new_urls := by
    intro u hu
    obtain ⟨r, hr, hru⟩ := List.mem_map.mp hu
    have hrflat : r ∈ bs.flatMap (·.filtered_results) :=
      dedup_by_url_mem _ [] r hr
    obtain ⟨b, hb, hrb⟩ := List.mem_flatMap.mp hrflat
    refine ⟨b, hb, ?_⟩
    rw [(hsucc b hb).1]
    exact hru ▸ List.mem_map_of_mem _ hrb
  rcases loop_batch_phase_result cfg stop it s t qtp with hres | hres <;>
    rw [hres] <;> rw [← hB, ← hS, ← hbs] <;> intro hok <;>
    rw [show ({ update_state_from_batch s bs with
          replies_ok := (update_state_from_batch s bs).replies_ok &&
            S.all (·.2) } : ResearchState).replies_ok =
        ((update_state_from_batch s bs).replies_ok && S.all (·.2)) from rfl,
      update_state_from_batch_replies, Bool.and_eq_true] at hok <;>
    obtain ⟨hrep, hall⟩ := hok <;>
    obtain ⟨hs_nodup, hd_nodup, hd_sub⟩ := hinv hrep
  · refine ⟨update_state_from_batch_seen_nodup s bs hs_nodup, ?_, ?_⟩
    · rw [show ({ update_state_from_batch s bs with
          replies_ok := (update_state_from_batch s bs).replies_ok &&
            S.all (·.2) } : ResearchState).dispatched_scrapes =
          (update_state_from_batch s bs).dispatched_scrapes from rfl,
        update_state_from_batch_dispatched]
      exact hd_nodup
    · intro u hu
      have hu2 : u ∈ (update_state_from_batch s bs).dispatched_scrapes := hu
      rw [update_state_from_batch_dispatched] at hu2
      exact update_state_from_batch_seen_mono s bs u (hd_sub u hu2)
  · have hLfresh : ∀ u ∈ (collect_results_to_scrape bs).map (·.url),
        u ∉ s.seen_urls := by
      intro u hu
      obtain ⟨b, hb, hub⟩ := hL u hu
      exact ((hsucc b hb).2 hall).2 u hub
    refine ⟨update_state_from_batch_seen_nodup s bs hs_nodup, ?_, ?_⟩
    · rw [show ({ update_state_from_batch s bs with
          replies_ok := (update_state_from_batch s bs).replies_ok && S.all (·.2)
          dispatched_scrapes := (update_state_from_batch s bs).dispatched_scrapes ++
            (collect_results_to_scrape bs).map (·.url)
          extracted_content := (update_state_from_batch s bs).extracted_content ++
            (if cfg.use_extraction then scrape_extract_accepted it.ext_outcomes
             else scrape_no_extraction_accepted (collect_results_to_scrape bs)
               it.raw_outcomes) } : ResearchState).dispatched_scrapes =
          ((update_state_from_batch s bs).dispatched_scrapes ++
            (collect_results_to_scrape bs).map (·.url)) from rfl,
        update_state_from_batch_dispatched]
      refine List.Nodup.append hd_nodup (dedup_by_url_map_nodup _ []).1 ?_
      intro u hu1 hu2
      exact hLfresh u hu2 (hd_sub u hu1)
    · intro u hu
      have hu2 : u ∈ (update_state_from_batch s bs).dispatched_scrapes ++
          (collect_results_to_scrape bs).map (·.url) := hu
      rcases List.mem_append.mp hu2 with hu3 | hu3
      · rw [update_state_from_batch_dispatched] at hu3
        exact update_state_from_batch_seen_mono s bs u (hd_sub u hu3)
      · exact update_state_from_batch_seen_of_urls s bs u (hL u hu3)

/-- One loop iteration preserves the no-refetch invariant. -/
theorem loop_iteration_inv (cfg : Config) (stop : Nat → Bool) (it : IterOracle)
    (s : ResearchState) (t : Nat) (rr : Bool) (hinv : UrlInvariant s) :
    UrlInvariant (iteration_state (loop_iteration cfg stop it s t rr)) := by
  have hb : ∀ qs : List QueryWithFilter,
      UrlInvariant (loop_batch_phase cfg stop it s t qs).1 :=
    fun qs => loop_batch_phase_inv cfg stop it s t qs hinv
  simp only [loop_iteration]
  split
  · exact hinv
  · split
    · exact hinv
    · split
      · exact hinv
      · split
        · exact hinv
        · split
          · exact hinv
          · split
            · exact hinv
            · split
              · exact hb _
              · split
                · exact hb _
                · exact hb _

/-- The rewrite loop preserves the no-refetch invariant. -/
theorem rewrite_loop_inv (cfg : Config) (stop : Nat → Bool) (iters : List IterOracle)
    (s : ResearchState) (t : Nat) (rr : Bool) (hinv : UrlInvariant s) :
    UrlInvariant (rewrite_loop cfg stop iters s t rr).state := by
  induction iters generalizing s t rr with
  | nil => exact hinv
  | cons it rest ih =>
    rw [rewrite_loop]
    have hi := loop_iteration_inv cfg stop it s t rr hinv
    cases hit : loop_iteration cfg stop it s t rr with
    | inl res =>
      rw [hit] at hi
      simp only [hit]
      exact hi
    | inr p =>
      rw [hit] at hi
      obtain ⟨s2, t2, rr2⟩ := p
      simp only [hit]
      exact ih s2 t2 rr2 hi

/-- The post-loop segment preserves the no-refetch invariant. -/
theorem workflow_after_initial_inv (cfg : Config) (stop : Nat → Bool)
    (o : WorkflowOracle) (s2 : ResearchState) (t : Nat)
    (hinv2 : UrlInvariant s2) :
    UrlInvariant (workflow_after_initial cfg stop o s2 t).final_state := by
  simp only [workflow_after_initial]
  split
  · exact rewrite_loop_inv cfg stop o.iters _ _ _ hinv2
  · rw [workflow_tail_final_state]
    exact rewrite_loop_inv cfg stop o.iters _ _ _ hinv2

/-- The main phase establishes and preserves the no-refetch invariant when
entered with empty seen and dispatch lists (as the orchestrator does). -/
theorem research_workflow_main_inv (cfg : Config) (stop : Nat → Bool) (q : String)
    (o : WorkflowOracle) (s : ResearchState) (t : Nat)
    (hseen : s.seen_urls = []) (hdisp : s.dispatched_scrapes = []) :
    UrlInvariant (research_workflow_main cfg stop q o s t).final_state := by
  simp only [research_workflow_main]
  cases hinit : o.initial_search with
  | error e =>
    simp only [hinit]
    intro _
    rw [hseen, hdisp]
    exact ⟨List.nodup_nil, List.nodup_nil, by simp⟩
  | ok p =>
    obtain ⟨srs, reply⟩ := p
    simp only [hinit]
    rw [hseen, hdisp]
    simp only [List.nil_append]
    split
    · intro hok
      have hok2 : (s.replies_ok &&
          (search_and_filter cfg.max_filtered cfg.max_results q [] srs
            reply).2.2) = true := hok
      rw [Bool.and_eq_true] at hok2
      have hwf := search_and_filter_wf cfg.max_filtered cfg.max_results q
        [] srs reply hok2.2
      exact ⟨hwf.1, List.nodup_nil, by simp⟩
    · apply workflow_after_initial_inv
      intro hok
      have hok2 : (s.replies_ok &&
          (search_and_filter cfg.max_filtered cfg.max_results q [] srs
            reply).2.2) = true := hok
      rw [Bool.and_eq_true] at hok2
      have hwf := search_and_filter_wf cfg.max_filtered cfg.max_results q
        [] srs reply hok2.2
      have hurls := search_and_filter_urls cfg.max_filtered cfg.max_results q
        [] srs reply
      refine ⟨hwf.1, ?_, ?_⟩
      · show ((search_and_filter cfg.max_filtered cfg.max_results q [] srs
          reply).1.map (·.url)).Nodup
        rw [← hurls]
        exact hwf.1
      · intro u hu
        have hu2 : u ∈ (search_and_filter cfg.max_filtered cfg.max_results q []
            srs reply).1.map (·.url) := hu
        rw [← hurls] at hu2
        exact hu2

/-- The orchestrator always ends with a final state satisfying the
no-refetch invariant. -/
theorem research_workflow_inv (cfg : Config) (stop : Nat → Bool) (q : String)
    (o : WorkflowOracle) :
    UrlInvariant (research_workflow cfg stop q o).final_state := by
  simp only [research_workflow]
  split
  · split
    · intro _
      exact ⟨List.nodup_nil, List.nodup_nil, by simp⟩
    · split
      · intro _
        exact ⟨List.nodup_nil, List.nodup_nil, by simp⟩
      · exact research_workflow_main_inv cfg stop q o _ 1 rfl rfl
  · exact research_workflow_main_inv cfg stop q o _ 0 rfl rfl

/-- C1 counterexample: a relevance-filter reply that lists the same URL
twice on the initial query makes the session record the URL twice in its
seen list and dispatch it twice to the scrape stage; the claim as stated
(no duplicate dispatch, duplicate-free seen list, unconditionally) is
therefore false on the code. -/
theorem c1_counterexample :
    (research_workflow ⟨3, 10, 3, false, false⟩ (fun _ => false) "q"
      ⟨.parseFail, .ok ([⟨"t", "http://u", "s"⟩],
        .parsed [⟨"t", "http://u", "s", (1 : ℚ)⟩, ⟨"t", "http://u", "s", (1 : ℚ)⟩]),
       [], [], [], .ok "ans"⟩).final_state.seen_urls = ["http://u", "http://u"] ∧
    ¬ (research_workflow ⟨3, 10, 3, false, false⟩ (fun _ => false) "q"
      ⟨.parseFail, .ok ([⟨"t", "http://u", "s"⟩],
        .parsed [⟨"t", "http://u", "s", (1 : ℚ)⟩, ⟨"t", "http://u", "s", (1 : ℚ)⟩]),
       [], [], [], .ok "ans"⟩).final_state.seen_urls.Nodup ∧
    (research_workflow ⟨3, 10, 3, false, false⟩ (fun _ => false) "q"
      ⟨.parseFail, .ok ([⟨"t", "http://u", "s"⟩],
        .parsed [⟨"t", "http://u", "s", (1 : ℚ)⟩, ⟨"t", "http://u", "s", (1 : ℚ)⟩]),
       [], [], [], .ok "ans"⟩).final_state.dispatched_scrapes =
      ["http://u", "http://u"] := by
  decide

/-- C1 (amended): provided every relevance-filter reply returns pairwise
distinct URLs drawn from the fresh results passed to it (the ghost
replies_ok flag), no URL is dispatched to the scrape stage twice over the
whole run and the seen-URL list never holds a duplicate: the invariant is
preserved by every rewrite-loop iteration sequence from any state
satisfying it (covering every intermediate point of every run), and every
full run ends with a duplicate-free seen list and dispatch history. -/
theorem c1_no_url_refetched :
    (∀ (cfg : Config) (stop : Nat → Bool) (iters : List IterOracle)
      (s : ResearchState) (t : Nat) (rr : Bool), UrlInvariant s →
      UrlInvariant (rewrite_loop cfg stop iters s t rr).state) ∧
    (∀ (cfg : Config) (stop : Nat → Bool) (q : String) (o : WorkflowOracle),
      (research_workflow cfg stop q o).final_state.replies_ok = true →
      (research_workflow cfg stop q o).final_state.seen_urls.Nodup ∧
      (research_workflow cfg stop q o).final_state.dispatched_scrapes.Nodup ∧
      ∀ u ∈ (research_workflow cfg stop q o).final_state.dispatched_scrapes,
        u ∈ (research_workflow cfg stop q o).final_state.seen_urls) :=
  ⟨rewrite_loop_inv, fun cfg stop q o hok => research_workflow_inv cfg stop q o hok⟩

/-- C1 witness: the amended theorem applied at a concrete two-query run
whose filter replies are well-formed, with the hypotheses discharged by
evaluation. -/
theorem c1_witness :
    (research_workflow ⟨3, 10, 3, false, false⟩ (fun _ => false) "q"
      ⟨.parseFail, .ok ([⟨"t", "http://u", "s"⟩],
        .parsed [⟨"t", "http://u", "s", (1 : ℚ)⟩]),
       [], [.ok "body"],
       [⟨.parseFail "qa", [some ([⟨"t2", "http://v", "s2"⟩, ⟨"t", "http://u", "s"⟩],
          .parsed [⟨"t2", "http://v", "s2", (1 : ℚ)⟩])], [], [.ok "body2"]⟩],
       .ok "ans"⟩).final_state.seen_urls.Nodup ∧
    (research_workflow ⟨3, 10, 3, false, false⟩ (fun _ => false) "q"
      ⟨.parseFail, .ok ([⟨"t", "http://u", "s"⟩],
        .parsed [⟨"t", "http://u", "s", (1 : ℚ)⟩]),
       [], [.ok "body"],
       [⟨.parseFail "qa", [some ([⟨"t2", "http://v", "s2"⟩, ⟨"t", "http://u", "s"⟩],
          .parsed [⟨"t2", "http://v", "s2", (1 : ℚ)⟩])], [], [.ok "body2"]⟩],
       .ok "ans"⟩).final_state.dispatched_scrapes.Nodup ∧
    ∀ u ∈ (research_workflow ⟨3, 10, 3, false, false⟩ (fun _ => false) "q"
      ⟨.parseFail, .ok ([⟨"t", "http://u", "s"⟩],
        .parsed [⟨"t", "http://u", "s", (1 : ℚ)⟩]),
       [], [.ok "body"],
       [⟨.parseFail "qa", [some ([⟨"t2", "http://v", "s2"⟩, ⟨"t", "http://u", "s"⟩],
          .parsed [⟨"t2", "http://v", "s2", (1 : ℚ)⟩])], [], [.ok "body2"]⟩],
       .ok "ans"⟩).final_state.dispatched_scrapes,
      u ∈ (research_workflow ⟨3, 10, 3, false, false⟩ (fun _ => false) "q"
      ⟨.parseFail, .ok ([⟨"t", "http://u", "s"⟩],
        .parsed [⟨"t", "http://u", "s", (1 : ℚ)⟩]),
       [], [.ok "body"],
       [⟨.parseFail "qa", [some ([⟨"t2", "http://v", "s2"⟩, ⟨"t", "http://u", "s"⟩],
          .parsed [⟨"t2", "http://v", "s2", (1 : ℚ)⟩])], [], [.ok "body2"]⟩],
       .ok "ans"⟩).final_state.seen_urls :=
  c1_no_url_refetched.2 ⟨3, 10, 3, false, false⟩ (fun _ => false) "q"
    ⟨.parseFail, .ok ([⟨"t", "http://u", "s"⟩],
      .parsed [⟨"t", "http://u", "s", (1 : ℚ)⟩]),
     [], [.ok "body"],
     [⟨.parseFail "qa", [some ([⟨"t2", "http://v", "s2"⟩, ⟨"t", "http://u", "s"⟩],
        .parsed [⟨"t2", "http://v", "s2", (1 : ℚ)⟩])], [], [.ok "body2"]⟩],
     .ok "ans"⟩ (by decide)

end DeepResearch
